import Mathlib

/-!
Verification development for the business-canvas backend (`canvas-be`).

Shallow embedding of the dual-response parser (`utils/json_parser.py`),
the schema validator, the prompt builders (`utils/prompts.py`), the
conversation-history reconstruction (`services/responses_service.py`) and
the chat-route state machine (`api/chat_routes.py`, `db/postgres_store.py`),
together with theorems settling the specification claims.

Strings are modelled as lists of characters (`Chars`); the Python string
operations used by the source (`str.split` with a non-empty separator,
`str.strip`, substring containment via `in`) are embedded as executable
functions over `Chars`.  Whitespace is modelled as the six ASCII whitespace
characters Python recognises; the source never relies on Unicode whitespace.
-/

namespace CanvasBE

/-- Character-list model of Python strings. -/
abbrev Chars := List Char

/-- Python whitespace for `str.strip` and the regex class `\s` (ASCII part). -/
def pyIsSpace (c : Char) : Bool :=
  c = ' ' || c = '\t' || c = '\n' || c = '\x0d' || c = '\x0b' || c = '\x0c'

/-- Python `str.strip()`: drop whitespace from both ends. -/
def pyStrip (s : Chars) : Chars :=
  ((s.dropWhile pyIsSpace).reverse.dropWhile pyIsSpace).reverse

/-- Worker for `splitOnSub`: scans left to right, splitting at each
non-overlapping occurrence of `sep`, accumulating the current piece in
reverse in `acc`.  Matches CPython `str.split(sep)` for non-empty `sep`;
every step consumes at least one character, so fuel equal to the length of
the scanned text always suffices and the fuel-0 fallback is unreachable
from `splitOnSub`. -/
def splitOnAux (sep : Chars) : Nat → Chars → Chars → List Chars
  | 0, l, acc => [acc.reverse ++ l]
  | fuel + 1, l, acc =>
    match l with
    | [] => [acc.reverse]
    | c :: rest =>
      if sep.isPrefixOf (c :: rest) then
        acc.reverse :: splitOnAux sep fuel (rest.drop (sep.length - 1)) []
      else
        splitOnAux sep fuel rest (c :: acc)

/-- Python `s.split(sep)` for a non-empty separator. -/
def splitOnSub (s sep : Chars) : List Chars :=
  splitOnAux sep s.length s []

/-- Python substring containment `sub in s`. -/
def containsSub (s sub : Chars) : Bool :=
  if sub.isPrefixOf s then true
  else
    match s with
    | [] => false
    | _ :: t => containsSub t sub

/-- JSON values as produced by `json.loads`.  Numeric literals are kept as
their lexeme (the claims never depend on numeric arithmetic). -/
inductive JVal where
  | null : JVal
  | bool : Bool → JVal
  | num : Chars → JVal
  | str : Chars → JVal
  | arr : List JVal → JVal
  | obj : List (Chars × JVal) → JVal

/-- JSON whitespace accepted between tokens by `json.loads`. -/
def jsonWs (c : Char) : Bool :=
  c = ' ' || c = '\t' || c = '\n' || c = '\x0d'

/-- Skip JSON inter-token whitespace. -/
def skipWs (s : Chars) : Chars := s.dropWhile jsonWs

/-- Hex digit value, for `\uXXXX` escapes. -/
def hexVal (c : Char) : Option Nat :=
  if '0' ≤ c ∧ c ≤ '9' then some (c.toNat - '0'.toNat)
  else if 'a' ≤ c ∧ c ≤ 'f' then some (c.toNat - 'a'.toNat + 10)
  else if 'A' ≤ c ∧ c ≤ 'F' then some (c.toNat - 'A'.toNat + 10)
  else none

/-- Body of a JSON string after the opening quote: collects characters,
decoding the standard escapes, until the closing quote.  Unescaped control
characters are rejected, as by `json.loads` in strict mode. -/
def parseStrBody : Nat → Chars → Chars → Option (Chars × Chars)
  | 0, _, _ => none
  | fuel + 1, acc, s =>
    match s with
    | [] => none
    | '"' :: rest => some (acc.reverse, rest)
    | '\\' :: esc =>
      match esc with
      | '"' :: r => parseStrBody fuel ('"' :: acc) r
      | '\\' :: r => parseStrBody fuel ('\\' :: acc) r
      | '/' :: r => parseStrBody fuel ('/' :: acc) r
      | 'b' :: r => parseStrBody fuel ('\x08' :: acc) r
      | 'f' :: r => parseStrBody fuel ('\x0c' :: acc) r
      | 'n' :: r => parseStrBody fuel ('\n' :: acc) r
      | 'r' :: r => parseStrBody fuel ('\x0d' :: acc) r
      | 't' :: r => parseStrBody fuel ('\t' :: acc) r
      | 'u' :: h1 :: h2 :: h3 :: h4 :: r =>
        match hexVal h1, hexVal h2, hexVal h3, hexVal h4 with
        | some a, some b, some c, some d =>
          let n := ((a * 16 + b) * 16 + c) * 16 + d
          if h : n.isValidChar then parseStrBody fuel (Char.ofNatAux n h :: acc) r
          else none
        | _, _, _, _ => none
      | _ => none
    | c :: rest =>
      if c.toNat < 32 then none else parseStrBody fuel (c :: acc) rest

/-- Lex a run of decimal digits. -/
def lexDigits (s : Chars) : Chars × Chars :=
  (s.takeWhile Char.isDigit, s.dropWhile Char.isDigit)

/-- Lex a JSON number (after an optional leading minus has been noted):
`int frac? exp?` with the strict leading-zero rule of `json.loads`. -/
def lexNumTail (s : Chars) : Option (Chars × Chars) :=
  match s with
  | '0' :: rest =>
    let (frac, r1) :=
      match rest with
      | '.' :: r =>
        let (ds, r2) := lexDigits r
        if ds = [] then ([], '.' :: r) else ('.' :: ds, r2)
      | _ => ([], rest)
    let (ex, r2) :=
      match r1 with
      | e :: r =>
        if e = 'e' ∨ e = 'E' then
          match r with
          | sgn :: r3 =>
            if sgn = '+' ∨ sgn = '-' then
              let (ds, r4) := lexDigits r3
              if ds = [] then ([], e :: r) else (e :: sgn :: ds, r4)
            else
              let (ds, r4) := lexDigits r
              if ds = [] then ([], e :: r) else (e :: ds, r4)
          | [] => ([], [e])
        else ([], e :: r)
      | [] => ([], [])
    some ('0' :: frac ++ ex, r2)
  | c :: rest =>
    if c.isDigit then
      let (ds, r0) := lexDigits rest
      let intPart := c :: ds
      let (frac, r1) :=
        match r0 with
        | '.' :: r =>
          let (fs, r2) := lexDigits r
          if fs = [] then ([], '.' :: r) else ('.' :: fs, r2)
        | _ => ([], r0)
      let (ex, r2) :=
        match r1 with
        | e :: r =>
          if e = 'e' ∨ e = 'E' then
            match r with
            | sgn :: r3 =>
              if sgn = '+' ∨ sgn = '-' then
                let (ds2, r4) := lexDigits r3
                if ds2 = [] then ([], e :: r) else (e :: sgn :: ds2, r4)
              else
                let (ds2, r4) := lexDigits r
                if ds2 = [] then ([], e :: r) else (e :: ds2, r4)
            | [] => ([], [e])
          else ([], e :: r)
        | [] => ([], [])
      some (intPart ++ frac ++ ex, r2)
    else none
  | [] => none

/-- Insert a key/value pair into an object the way a Python dict does:
a repeated key keeps its first position but takes the last value. -/
def objInsert (kvs : List (Chars × JVal)) (k : Chars) (v : JVal) :
    List (Chars × JVal) :=
  if kvs.any (fun kv => kv.1 == k) then
    kvs.map (fun kv => if kv.1 == k then (k, v) else kv)
  else kvs ++ [(k, v)]

mutual

/-- Recursive-descent JSON value, as `json.loads` (which also accepts the
constants `NaN`, `Infinity` and `-Infinity`).  The fuel only bounds nesting
depth; callers supply more than enough. -/
def parseVal : Nat → Chars → Option (JVal × Chars)
  | 0, _ => none
  | fuel + 1, s =>
    let s := skipWs s
    match s with
    | [] => none
    | c :: rest =>
      if c = 'n' then
        if ['u', 'l', 'l'].isPrefixOf rest then some (.null, rest.drop 3) else none
      else if c = 't' then
        if ['r', 'u', 'e'].isPrefixOf rest then some (.bool true, rest.drop 3)
        else none
      else if c = 'f' then
        if ['a', 'l', 's', 'e'].isPrefixOf rest then some (.bool false, rest.drop 4)
        else none
      else if c = 'N' then
        if ['a', 'N'].isPrefixOf rest then some (.num ['N', 'a', 'N'], rest.drop 2)
        else none
      else if c = 'I' then
        if ['n', 'f', 'i', 'n', 'i', 't', 'y'].isPrefixOf rest then
          some (.num "Infinity".data, rest.drop 7)
        else none
      else if c = '"' then
        match parseStrBody (rest.length + 1) [] rest with
        | some (str, r) => some (.str str, r)
        | none => none
      else if c = '[' then
        let r := skipWs rest
        match r with
        | ']' :: r2 => some (.arr [], r2)
        | _ => parseArrItems fuel r []
      else if c = '{' then
        let r := skipWs rest
        match r with
        | '}' :: r2 => some (.obj [], r2)
        | _ => parseObjItems fuel r []
      else if c = '-' then
        if ['I', 'n', 'f', 'i', 'n', 'i', 't', 'y'].isPrefixOf rest then
          some (.num "-Infinity".data, rest.drop 8)
        else
          match lexNumTail rest with
          | some (lex, r) => some (.num ('-' :: lex), r)
          | none => none
      else
        match lexNumTail s with
        | some (lex, r) => some (.num lex, r)
        | none => none

/-- Comma-separated array items, after at least one item is known to follow. -/
def parseArrItems : Nat → Chars → List JVal → Option (JVal × Chars)
  | 0, _, _ => none
  | fuel + 1, s, acc =>
    match parseVal fuel s with
    | none => none
    | some (v, r) =>
      let r := skipWs r
      match r with
      | ',' :: r2 => parseArrItems fuel r2 (v :: acc)
      | ']' :: r2 => some (.arr (v :: acc).reverse, r2)
      | _ => none

/-- Comma-separated object members, after at least one member is known to
follow. -/
def parseObjItems : Nat → Chars → List (Chars × JVal) →
    Option (JVal × Chars)
  | 0, _, _ => none
  | fuel + 1, s, acc =>
    let s := skipWs s
    match s with
    | '"' :: rest =>
      match parseStrBody (rest.length + 1) [] rest with
      | none => none
      | some (key, r) =>
        let r := skipWs r
        match r with
        | ':' :: r2 =>
          match parseVal fuel r2 with
          | none => none
          | some (v, r3) =>
            let r3 := skipWs r3
            match r3 with
            | ',' :: r4 => parseObjItems fuel r4 (objInsert acc key v)
            | '}' :: r4 => some (.obj (objInsert acc key v), r4)
            | _ => none
        | _ => none
    | _ => none

end

/-- Python `json.loads`: parse one value and require only trailing
whitespace after it. -/
def jsonLoads (s : Chars) : Option JVal :=
  match parseVal (2 * s.length + 2) s with
  | some (v, rest) => if skipWs rest = [] then some v else none
  | none => none

/-- Hex digit character for `\u00XX` escapes emitted by `json.dumps`. -/
def hexDigit (n : Nat) : Char :=
  if n < 10 then Char.ofNat ('0'.toNat + n) else Char.ofNat ('a'.toNat + n - 10)

/-- Escaping of one character inside a `json.dumps` string literal. -/
def jsonEscapeChar (c : Char) : Chars :=
  if c = '"' then ['\\', '"']
  else if c = '\\' then ['\\', '\\']
  else if c = '\n' then ['\\', 'n']
  else if c = '\t' then ['\\', 't']
  else if c = '\x0d' then ['\\', 'r']
  else if c = '\x08' then ['\\', 'b']
  else if c = '\x0c' then ['\\', 'f']
  else if c.toNat < 32 then
    ['\\', 'u', '0', '0', hexDigit (c.toNat / 16), hexDigit (c.toNat % 16)]
  else [c]

/-- A `json.dumps` double-quoted string literal. -/
def jsonQuote (s : Chars) : Chars :=
  '"' :: (s.map jsonEscapeChar).flatten ++ ['"']

mutual

/-- Python `json.dumps` with its default separators.  Numeric values are
reprinted from their lexeme; non-ASCII escaping (`ensure_ascii`) is not
modelled since the claims never exercise it. -/
def jsonDumps : JVal → Chars
  | .null => "null".data
  | .bool true => "true".data
  | .bool false => "false".data
  | .num lex => lex
  | .str s => jsonQuote s
  | .arr xs => '[' :: jsonDumpsList xs ++ [']']
  | .obj kvs => '{' :: jsonDumpsObj kvs ++ ['}']

/-- Array elements joined by the default item separator. -/
def jsonDumpsList : List JVal → Chars
  | [] => []
  | [x] => jsonDumps x
  | x :: y :: rest => jsonDumps x ++ ", ".data ++ jsonDumpsList (y :: rest)

/-- Object members joined by the default separators. -/
def jsonDumpsObj : List (Chars × JVal) → Chars
  | [] => []
  | [(k, v)] => jsonQuote k ++ ": ".data ++ jsonDumps v
  | (k, v) :: kv2 :: rest =>
    jsonQuote k ++ ": ".data ++ jsonDumps v ++ ", ".data ++
      jsonDumpsObj (kv2 :: rest)

end

mutual

/-- Python `repr` of a value decoded from JSON (used by `str()` on
containers).  Strings are rendered single-quoted; inner-quote escaping is
not modelled since the claims never exercise it. -/
def pyRepr : JVal → Chars
  | .null => "None".data
  | .bool true => "True".data
  | .bool false => "False".data
  | .num lex => lex
  | .str s => '\x27' :: s ++ ['\x27']
  | .arr xs => '[' :: pyReprList xs ++ [']']
  | .obj kvs => '{' :: pyReprObj kvs ++ ['}']

/-- Elements of a Python list repr. -/
def pyReprList : List JVal → Chars
  | [] => []
  | [x] => pyRepr x
  | x :: y :: rest => pyRepr x ++ ", ".data ++ pyReprList (y :: rest)

/-- Members of a Python dict repr. -/
def pyReprObj : List (Chars × JVal) → Chars
  | [] => []
  | [(k, v)] => ('\x27' :: k ++ ['\x27']) ++ ": ".data ++ pyRepr v
  | (k, v) :: kv2 :: rest =>
    ('\x27' :: k ++ ['\x27']) ++ ": ".data ++ pyRepr v ++ ", ".data ++
      pyReprObj (kv2 :: rest)

end

/-- Python `str()` of a value decoded from JSON. -/
def pyStr : JVal → Chars
  | .str s => s
  | v => pyRepr v

/-- Dropping a prefix by a predicate never lengthens a list. -/
theorem dropWhile_len_le {α : Type} (p : α → Bool) (l : List α) :
    (l.dropWhile p).length ≤ l.length := by
  induction l with
  | nil => simp [List.dropWhile]
  | cons a t ih =>
    by_cases h : p a
    · simpa [List.dropWhile, h] using Nat.le_succ_of_le ih
    · simp [List.dropWhile, h]

/-- Models `re.sub(r"```json\s*|\s*```", "", text)` from
`parse_json_from_text`: scanning left to right, a literal ` ```json ` plus
the following whitespace run, or a whitespace run directly followed by
` ``` `, is removed; otherwise the character is kept. -/
def stripCodeFencesAux : Nat → Chars → Chars
  | 0, l => l
  | fuel + 1, l =>
    match l with
    | [] => []
    | c :: rest =>
      if "```json".data.isPrefixOf (c :: rest) then
        stripCodeFencesAux fuel ((rest.drop 6).dropWhile pyIsSpace)
      else
        let r2 := (c :: rest).dropWhile pyIsSpace
        if "```".data.isPrefixOf r2 then
          stripCodeFencesAux fuel (r2.drop 3)
        else
          c :: stripCodeFencesAux fuel rest

/-- Fence removal at full fuel (the scan shortens the text at every step,
so the length of the input always suffices). -/
def stripCodeFences (s : Chars) : Chars :=
  stripCodeFencesAux s.length s

/-- Models `re.search(r"(\{.*\})", text, re.DOTALL)`: the greedy match runs
from the first opening brace to the last closing brace after it. -/
def firstBraceSlice (t : Chars) : Option Chars :=
  match t.findIdx? (· = '{'), (t.reverse.findIdx? (· = '}')) with
  | some i, some krev =>
    let j := t.length - 1 - krev
    if i < j then some ((t.drop i).take (j - i + 1)) else none
  | _, _ => none

/-- `parse_json_from_text` (utils/json_parser.py:40): remove markdown code
fences, take the slice between the outermost braces when one exists, and
`json.loads` it; otherwise `json.loads` the whole text.  `none` models the
ValueError the Python function raises. -/
def parse_json_from_text (text : Chars) : Option JVal :=
  let t := pyStrip (stripCodeFences text)
  match firstBraceSlice t with
  | some js => jsonLoads js
  | none => jsonLoads t

/-- The chat-section marker of the dual-response protocol. -/
def chatMarker : Chars := "---CHAT_RESPONSE---".data

/-- The canvas-section marker of the dual-response protocol. -/
def canvasMarker : Chars := "---CANVAS_JSON---".data

/-- Result of `parse_dual_response`: either the chat text and canvas JSON,
or the message of the ValueError raised. -/
inductive ParseOutcome where
  | ok (chat : Chars) (canvas : JVal)
  | err (msg : Chars)

/-- True on the error constructor. -/
def ParseOutcome.isErr : ParseOutcome → Bool
  | .ok _ _ => false
  | .err _ => true

/-- The chat segment as computed by `parse_dual_response` from the text
before the canvas marker: if the chat marker occurs in it, everything after
the (first) chat marker, else the whole part, stripped. -/
def chatSegment (chatPart : Chars) : Chars :=
  if containsSub chatPart chatMarker then
    pyStrip ((splitOnSub chatPart chatMarker).getD 1 [])
  else
    pyStrip chatPart

/-- `parse_dual_response` (utils/json_parser.py:5): split on the canvas
marker; exactly two parts are required; the chat marker is consulted only
to trim the chat segment.  The JSON-error message is abstracted (the source
interpolates the `json` module's exception text). -/
def parse_dual_response (response_text : Chars) : ParseOutcome :=
  match splitOnSub response_text canvasMarker with
  | [chatPart, jsonPart] =>
    match parse_json_from_text (pyStrip jsonPart) with
    | some j => .ok (chatSegment chatPart) j
    | none => .err "Failed to parse dual response: Invalid JSON format".data
  | _ =>
    .err ("Failed to parse dual response: Response does not contain both " ++
      "CHAT_RESPONSE and CANVAS_JSON sections").data

/-- First-match key lookup in a decoded JSON object (Python dict access;
`json.loads` already de-duplicated keys). -/
def lookupKey (kvs : List (Chars × JVal)) (k : Chars) : Option JVal :=
  match kvs.find? (fun kv => kv.1 == k) with
  | some kv => some kv.2
  | none => none

/-- True on JSON strings (`isinstance(v, str)`). -/
def isStr : JVal → Bool
  | .str _ => true
  | _ => false

/-- True on JSON arrays (`isinstance(v, list)`). -/
def isArr : JVal → Bool
  | .arr _ => true
  | _ => false

/-- True on JSON objects (`isinstance(v, dict)`). -/
def isObj : JVal → Bool
  | .obj _ => true
  | _ => false

/-- The `required_fields` list of `validate_canvas_structure`
(utils/json_parser.py:76). -/
def requiredFields : List Chars :=
  ["Title".data, "Problem Statement".data, "Objectives".data, "KPIs".data,
   "Success Criteria".data, "Key Features".data, "Risks".data,
   "Assumptions".data, "Non Functional Requirements".data,
   "Use Cases".data, "Governance".data]

/-- The `array_fields` list of `validate_canvas_structure`
(utils/json_parser.py:94). -/
def arrayFields : List Chars :=
  ["Objectives".data, "KPIs".data, "Success Criteria".data,
   "Key Features".data, "Risks".data, "Assumptions".data,
   "Non Functional Requirements".data, "Use Cases".data]

/-- Error for a present field of the wrong scalar/object type. -/
def typeErrOf (present : Option JVal) (good : JVal → Bool) (msg : Chars) :
    List Chars :=
  match present with
  | some v => if good v then [] else [msg]
  | none => []

/-- The array-field defect test of `validate_canvas_structure`: a present
value that is not a list. -/
def badArrayVal : Option JVal → Bool
  | some v => !isArr v
  | none => false

/-- `validate_canvas_structure` (utils/json_parser.py:67): collects, in
source order, missing required keys, scalar-type defects for Title and
Problem Statement, array-type defects, and an object-type defect for
Governance; valid iff no error was collected. -/
def validate_canvas_structure (canvas_data : List (Chars × JVal)) :
    Bool × List Chars :=
  let missing :=
    (requiredFields.filter (fun f => (lookupKey canvas_data f).isNone)).map
      (fun f => "Missing required field: \x27".data ++ f ++ "\x27".data)
  let titleErr := typeErrOf (lookupKey canvas_data "Title".data) isStr
    "\x27Title\x27 must be a string".data
  let psErr := typeErrOf (lookupKey canvas_data "Problem Statement".data)
    isStr "\x27Problem Statement\x27 must be a string".data
  let arrErrs :=
    (arrayFields.filter
      (fun f => badArrayVal (lookupKey canvas_data f))).map
      (fun f => "\x27".data ++ f ++ "\x27 must be an array".data)
  let govErr := typeErrOf (lookupKey canvas_data "Governance".data) isObj
    "\x27Governance\x27 must be an object".data
  let errors := missing ++ titleErr ++ psErr ++ arrErrs ++ govErr
  (errors.isEmpty, errors)

/-- `get_initial_canvas_prompt` (utils/prompts.py:102). -/
def get_initial_canvas_prompt (problem_statement : Chars) : Chars :=
  "USER PROBLEM STATEMENT: ".data ++ problem_statement ++
    ("\n\nPlease generate a comprehensive Business Model Canvas based on " ++
     "this problem statement and any uploaded documents.\n\nRemember to " ++
     "provide your response in the required format:\n---CHAT_RESPONSE---\n" ++
     "[Your response]\n\n---CANVAS_JSON---\n[Complete JSON]").data

/-- `get_refinement_prompt` (utils/prompts.py:115).  The source function
takes exactly one parameter: the user message.  It has no canvas argument,
although its caller at services/responses_service.py:81 passes one. -/
def get_refinement_prompt (user_message : Chars) : Chars :=
  "USER MESSAGE: ".data ++ user_message ++
    ("\n\nPlease refine the Business Model Canvas based on this feedback " ++
     "and provide your response in the required format:\n" ++
     "---CHAT_RESPONSE---\n[Your response. Clearly mention which sections " ++
     "have been updated.]\n\n---CANVAS_JSON---\n[Updated complete JSON]").data

/-- `ResponsesService._extract_user_message`
(services/responses_service.py:141): strips the initial-prompt wrapper via
the `USER PROBLEM STATEMENT:` / `\n\nPlease generate` delimiters, else the
refinement wrapper via `USER MESSAGE:` / `\n\nREFINEMENT INSTRUCTIONS:`,
else returns the content unchanged. -/
def extract_user_message (prompt_content : Chars) : Chars :=
  let tryInitial : Option Chars :=
    if containsSub prompt_content "USER PROBLEM STATEMENT:".data then
      let parts := splitOnSub prompt_content "USER PROBLEM STATEMENT:".data
      if parts.length > 1 then
        some (pyStrip ((splitOnSub (parts.getD 1 [])
          "\n\nPlease generate".data).getD 0 []))
      else none
    else none
  match tryInitial with
  | some r => r
  | none =>
    let tryRefine : Option Chars :=
      if containsSub prompt_content "USER MESSAGE:".data then
        let parts := splitOnSub prompt_content "USER MESSAGE:".data
        if parts.length > 1 then
          some (pyStrip ((splitOnSub (parts.getD 1 [])
            "\n\nREFINEMENT INSTRUCTIONS:".data).getD 0 []))
        else none
      else none
    match tryRefine with
    | some r => r
    | none => prompt_content

/-- One stored turn of the remote responses API: the raw model output and
the `input_text` item of the request that produced it.  A chain is the
backward-linked walk of `get_conversation_history`, newest turn first; the
spec's no-cycle invariant makes it a finite list. -/
structure Resp where
  output_text : Chars
  input_text : Chars

/-- One entry of the reconstructed conversation history. -/
structure HistEntry where
  role : Chars
  content : Chars
deriving DecidableEq

/-- The assistant entry of a turn: the parsed chat segment, or the whole
raw output when parsing fails (services/responses_service.py:113-124). -/
def assistantContentOf (r : Resp) : Chars :=
  match parse_dual_response r.output_text with
  | .ok chat _ => chat
  | .err _ => r.output_text

/-- The walk of `get_conversation_history`
(services/responses_service.py:110-137): per turn, the assistant entry
followed by the user entry (the extracted user message), newest turn
first. -/
def historyPass : List Resp → List HistEntry
  | [] => []
  | r :: rest =>
    ⟨"assistant".data, assistantContentOf r⟩ ::
      ⟨"user".data, extract_user_message r.input_text⟩ :: historyPass rest

/-- `ResponsesService.get_conversation_history`: the walk reversed, so the
result is oldest turn first (services/responses_service.py:139). -/
def get_conversation_history (chain : List Resp) : List HistEntry :=
  (historyPass chain).reverse

/-- String content of a JSON value, as pydantic requires for `str` fields. -/
def asStrVal : JVal → Option Chars
  | .str s => some s
  | _ => none

/-- List-of-string content, as pydantic requires for `List[str]` fields. -/
def asStrList : JVal → Option (List Chars)
  | .arr xs => xs.mapM asStrVal
  | _ => none

/-- First hit among a pydantic `AliasChoices` key list. -/
def lookupAliases (o : List (Chars × JVal)) : List Chars → Option JVal
  | [] => none
  | k :: ks =>
    match lookupKey o k with
    | some v => some v
    | none => lookupAliases o ks

/-- Validate a list field whose items go through an item model. -/
def asArrMapM (f : JVal → Option JVal) : JVal → Option (List JVal)
  | .arr xs => xs.mapM f
  | _ => none

/-- `KPIItem` of models/schemas.py: validation plus `model_dump`. -/
def validKPIItem : JVal → Option JVal
  | .obj o => do
    let m ← lookupKey o "metric".data >>= asStrVal
    let b ← lookupKey o "baseline".data >>= asStrVal
    let t ← lookupKey o "target".data >>= asStrVal
    let f ← lookupKey o "measurement_frequency".data >>= asStrVal
    some (.obj [("metric".data, .str m), ("baseline".data, .str b),
      ("target".data, .str t), ("measurement_frequency".data, .str f)])
  | _ => none

/-- `KeyFeatureItem` of models/schemas.py. -/
def validKeyFeatureItem : JVal → Option JVal
  | .obj o => do
    let f ← lookupKey o "feature".data >>= asStrVal
    let d ← lookupKey o "description".data >>= asStrVal
    let p ← lookupKey o "priority".data >>= asStrVal
    some (.obj [("feature".data, .str f), ("description".data, .str d),
      ("priority".data, .str p)])
  | _ => none

/-- `RiskItem` of models/schemas.py. -/
def validRiskItem : JVal → Option JVal
  | .obj o => do
    let r ← lookupKey o "risk".data >>= asStrVal
    let m ← lookupKey o "mitigation".data >>= asStrVal
    some (.obj [("risk".data, .str r), ("mitigation".data, .str m)])
  | _ => none

/-- `UseCaseItem` of models/schemas.py (note: it requires a `scenario`
sub-key, while the LLM schema and system prompt ask for `description`). -/
def validUseCaseItem : JVal → Option JVal
  | .obj o => do
    let u ← lookupKey o "use_case".data >>= asStrVal
    let a ← lookupKey o "actor".data >>= asStrVal
    let g ← lookupKey o "goal".data >>= asStrVal
    let s ← lookupKey o "scenario".data >>= asStrVal
    some (.obj [("use_case".data, .str u), ("actor".data, .str a),
      ("goal".data, .str g), ("scenario".data, .str s)])
  | _ => none

/-- `NonFunctionalRequirementItem` of models/schemas.py: a four-bucket
object, each bucket a list of strings, fed through `AliasChoices`. -/
def validNFRItem : JVal → Option JVal
  | .obj o => do
    let p ← lookupAliases o ["Performance & Scalability".data,
      "performance".data] >>= asStrList
    let d ← lookupAliases o ["Data Quality & Integration".data,
      "data_quality".data] >>= asStrList
    let r ← lookupAliases o ["Reliability".data, "reliability".data] >>=
      asStrList
    let s ← lookupAliases o ["Security/Compliance/Privacy".data,
      "security".data] >>= asStrList
    some (.obj [("performance".data, .arr (p.map .str)),
      ("data_quality".data, .arr (d.map .str)),
      ("reliability".data, .arr (r.map .str)),
      ("security".data, .arr (s.map .str))])
  | _ => none

/-- A validated `CanvasFieldList` (models/schemas.py:81).  For the two
optional fields the outer option records whether the field was set at all
(for `exclude_unset`), the inner one whether it was an explicit null. -/
structure CFL where
  title : Chars
  problem_statement : Chars
  objectives : List Chars
  kpis : List JVal
  success_criteria : List Chars
  key_features : List JVal
  risks : List JVal
  assumptions : List Chars
  nfr : JVal
  use_cases : List JVal
  governance : Option (Option (List (Chars × JVal)))
  relevant_facts : Option (Option (List Chars))

/-- `CanvasFieldList.model_validate`: every required field through its
`AliasChoices` (spaced alias, snake-case alias, and the field name itself,
which `validate_by_name` admits); extra input keys are ignored. -/
def canvasFieldListValidate (o : List (Chars × JVal)) : Option CFL := do
  let title ← lookupAliases o ["Title".data, "title".data] >>= asStrVal
  let ps ← lookupAliases o ["Problem Statement".data,
    "problem_statement".data, "Problem_Statement".data] >>= asStrVal
  let objectives ← lookupAliases o ["Objectives".data, "objectives".data] >>=
    asStrList
  let kpis ← match lookupAliases o ["KPIs".data, "kpis".data] with
    | some v => asArrMapM validKPIItem v
    | none => none
  let sc ← lookupAliases o ["Success Criteria".data, "success_criteria".data,
    "Success_Criteria".data] >>= asStrList
  let kf ← match lookupAliases o ["Key Features".data, "key_features".data,
      "Key_Features".data] with
    | some v => asArrMapM validKeyFeatureItem v
    | none => none
  let risks ← match lookupAliases o ["Risks".data, "risks".data] with
    | some v => asArrMapM validRiskItem v
    | none => none
  let assumptions ← lookupAliases o ["Assumptions".data,
    "assumptions".data] >>= asStrList
  let nfr ← match lookupAliases o ["Non Functional Requirements".data,
      "non_functional_requirements".data,
      "Non_Functional_Requirements".data] with
    | some v => validNFRItem v
    | none => none
  let ucs ← match lookupAliases o ["Use Cases".data, "use_cases".data,
      "Use_Cases".data] with
    | some v => asArrMapM validUseCaseItem v
    | none => none
  let gov ← match lookupAliases o ["Governance".data, "governance".data] with
    | none => some Option.none
    | some .null => some (some Option.none)
    | some (.obj d) => some (some (some d))
    | some _ => none
  let rf ← match lookupAliases o ["Relevant Facts".data,
      "relevant_facts".data, "Relevant_Facts".data] with
    | none => some Option.none
    | some .null => some (some Option.none)
    | some (.arr xs) =>
      match xs.mapM asStrVal with
      | some ss => some (some (some ss))
      | none => none
    | some _ => none
  some ⟨title, ps, objectives, kpis, sc, kf, risks, assumptions, nfr, ucs,
    gov, rf⟩

/-- JSON rendering of the optional `Governance` field in a dump. -/
def govDumpVal : Option (Option (List (Chars × JVal))) → JVal
  | some (some d) => .obj d
  | _ => .null

/-- JSON rendering of the optional `Relevant_Facts` field in a dump. -/
def rfDumpVal : Option (Option (List Chars)) → JVal
  | some (some ss) => .arr (ss.map .str)
  | _ => .null

/-- The ten always-set members of a `CanvasFieldList` dump, keyed by the
declared field names (no serialization aliases are configured, so
`by_alias=True` also produces these keys). -/
def cflDumpBase (c : CFL) : List (Chars × JVal) :=
  [("Title".data, .str c.title),
   ("Problem_Statement".data, .str c.problem_statement),
   ("Objectives".data, .arr (c.objectives.map .str)),
   ("KPIs".data, .arr c.kpis),
   ("Success_Criteria".data, .arr (c.success_criteria.map .str)),
   ("Key_Features".data, .arr c.key_features),
   ("Risks".data, .arr c.risks),
   ("Assumptions".data, .arr (c.assumptions.map .str)),
   ("Non_Functional_Requirements".data, c.nfr),
   ("Use_Cases".data, .arr c.use_cases)]

/-- `model_dump()`: all twelve keys, unset optionals dumped as null. -/
def cflDumpObj (c : CFL) : List (Chars × JVal) :=
  cflDumpBase c ++
    [("Governance".data, govDumpVal c.governance),
     ("Relevant_Facts".data, rfDumpVal c.relevant_facts)]

/-- `model_dump(by_alias=True, exclude_unset=True)` as used by
`save_canvas` (api/chat_routes.py:176): unset optional fields are omitted. -/
def cflDumpByAliasExcludeUnset (c : CFL) : List (Chars × JVal) :=
  cflDumpBase c ++
    (match c.governance with
     | some g => [("Governance".data, govDumpVal (some g))]
     | none => []) ++
    (match c.relevant_facts with
     | some r => [("Relevant_Facts".data, rfDumpVal (some r))]
     | none => [])

/-- Python `dict.pop(k, None)`: remove the key when present. -/
def dictPop (o : List (Chars × JVal)) (k : Chars) : List (Chars × JVal) :=
  o.filter (fun kv => kv.1 != k)

/-- A row of the `canvas` table, restricted to the columns the claims
read: name, status, thread reference and attached file ids
(db/postgres_store.py). -/
structure CanvasRow where
  name : Option Chars
  status : Chars
  thread_id : Option Chars
  file_ids : List Chars
deriving DecidableEq

/-- A row of the `canvas_fields` table, exactly as serialised by
`PostgresStore.upsert_canvas_fields`: `text` columns, `text[]` columns and
two JSONB columns kept as their serialised text. -/
structure FieldsRow where
  title : Option Chars
  problem_statement : Option Chars
  objectives : List Chars
  kpis : List Chars
  success_criteria : List Chars
  key_features : List Chars
  relevant_facts : List Chars
  risks : List Chars
  assumptions : List Chars
  non_functional_requirements : Chars
  use_cases : List Chars
  governance : Chars
  tags : List Chars
deriving DecidableEq

/-- The store state for one canvas: its header row, its fields row, and
its manual-override flag. -/
structure DB where
  canvas : Option CanvasRow
  fields : Option FieldsRow
  manual_update : Bool
deriving DecidableEq

/-- `PostgresStore.create_canvas` (db/postgres_store.py:13): a fresh header
row with the default name and status `created`; no fields row exists yet. -/
def create_canvas_row : CanvasRow :=
  { name := some "Untitled Canvas".data, status := "created".data,
    thread_id := none, file_ids := [] }

/-- Modelled from the spec: `PostgresStore.check_manual_update` is called
at api/chat_routes.py:72 but no method of that name exists under `src/`
(db/postgres_store.py defines neither it nor `toggle_manual_update`).
Per spec section 4.4 the store exposes the canvas's manual-override flag;
this models the read side. -/
def check_manual_update (db : DB) : Bool := db.manual_update

/-- Modelled from the spec: `PostgresStore.toggle_manual_update` is called
at api/chat_routes.py:121 and 185 but not defined under `src/`.  Per spec
section 4.4 (`set_manual_override(canvas_id, bool)`) it writes the
manual-override flag. -/
def toggle_manual_update (db : DB) (b : Bool) : DB :=
  { db with manual_update := b }

/-- The `to_array` helper of `upsert_canvas_fields`
(db/postgres_store.py:271): lists map `str` over their items, null and
missing become empty, any other value becomes a one-element array. -/
def to_array : Option JVal → List Chars
  | some (.arr xs) => xs.map pyStr
  | some .null => []
  | some v => [pyStr v]
  | none => []

/-- The `dict_list_to_text_array` helper (db/postgres_store.py:280): dict
items are `json.dumps`-ed, other items are `str`-ed, non-lists become
empty. -/
def dict_list_to_text_array : Option JVal → List Chars
  | some (.arr xs) =>
    xs.map (fun x =>
      match x with
      | .obj kvs => jsonDumps (.obj kvs)
      | other => pyStr other)
  | _ => []

/-- The `to_jsonb` helper (db/postgres_store.py:286): null/missing becomes
the empty-object text, strings pass through raw, anything else is
`json.dumps`-ed. -/
def to_jsonb : Option JVal → Chars
  | none => jsonDumps (.obj [])
  | some .null => jsonDumps (.obj [])
  | some (.str s) => s
  | some v => jsonDumps v

/-- A `text` column cell: strings directly, null as NULL; other JSON values
are stringified (the driver-level behaviour for a non-string is
approximated by `str`; the claims only store strings here). -/
def textCell : Option JVal → Option Chars
  | some (.str s) => some s
  | some .null => none
  | some v => some (pyStr v)
  | none => none

/-- `PostgresStore.upsert_canvas_fields` (db/postgres_store.py:255): maps
the canvas dict onto the columns with the source's spaced key names and
defaults (full-row replace). -/
def upsert_canvas_fields (o : List (Chars × JVal)) : FieldsRow :=
  { title :=
      match lookupKey o "Title".data with
      | none => some "Untitled".data
      | some v => textCell (some v)
    problem_statement := textCell (lookupKey o "Problem Statement".data)
    objectives := to_array (lookupKey o "Objectives".data)
    kpis := dict_list_to_text_array (lookupKey o "KPIs".data)
    success_criteria := to_array (lookupKey o "Success Criteria".data)
    key_features := dict_list_to_text_array (lookupKey o "Key Features".data)
    relevant_facts := to_array
      (match lookupKey o "Relevant Facts".data with
       | none => some (.arr [])
       | some v => some v)
    risks := dict_list_to_text_array (lookupKey o "Risks".data)
    assumptions := to_array (lookupKey o "Assumptions".data)
    non_functional_requirements :=
      to_jsonb (lookupKey o "Non Functional Requirements".data)
    use_cases := dict_list_to_text_array (lookupKey o "Use Cases".data)
    governance := to_jsonb
      (match lookupKey o "Governance".data with
       | none => some (.arr [])
       | some v => some v)
    tags := to_array
      (match lookupKey o "Tags".data with
       | none => some (.arr [])
       | some v => some v) }

/-- A Python exception escaping a step of the turn. -/
inductive PyErr where
  | valueError (msg : Chars)
  | typeError (msg : Chars)
deriving DecidableEq

/-- Optional-text column rendered back to JSON by the row reader. -/
def optCell : Option Chars → JVal
  | some s => .str s
  | none => .null

/-- The dict produced from a fields row by `get_canvas_fields` plus the
four `text_array_to_dict_list` normalisations of api/chat_routes.py:85-88
(`kpis`, `key_features`, `risks`, `use_cases` already decoded); the JSONB
columns come back parsed.  The row's metadata columns (ids, timestamps)
are ignored by the pydantic model and omitted. -/
def rowToJson (row : FieldsRow) (kpis kf risks ucs : List JVal) :
    List (Chars × JVal) :=
  [("title".data, optCell row.title),
   ("problem_statement".data, optCell row.problem_statement),
   ("objectives".data, .arr (row.objectives.map .str)),
   ("kpis".data, .arr kpis),
   ("success_criteria".data, .arr (row.success_criteria.map .str)),
   ("key_features".data, .arr kf),
   ("relevant_facts".data, .arr (row.relevant_facts.map .str)),
   ("risks".data, .arr risks),
   ("assumptions".data, .arr (row.assumptions.map .str)),
   ("non_functional_requirements".data,
     (jsonLoads row.non_functional_requirements).getD .null),
   ("use_cases".data, .arr ucs),
   ("governance".data, (jsonLoads row.governance).getD .null),
   ("tags".data, .arr (row.tags.map .str))]

/-- The manual-override branch of `send_message`
(api/chat_routes.py:70-99): when the flag is set, load the fields row,
`json.loads` every entry of the four record columns (a failure there is a
ValueError, a missing row a TypeError), validate through
`CanvasFieldList`, and pop the keys `governance` and `relevant_facts` from
the dump — which removes nothing, because the dump's keys are the
capitalised field names.  A pydantic failure is only logged: the context
becomes `none` and the turn proceeds. -/
def manualBranch (db : DB) : Except PyErr (Option (List (Chars × JVal))) :=
  if check_manual_update db then
    match db.fields with
    | none => .error (.typeError "NoneType object is not subscriptable".data)
    | some row =>
      match row.kpis.mapM jsonLoads, row.key_features.mapM jsonLoads,
          row.risks.mapM jsonLoads, row.use_cases.mapM jsonLoads with
      | some kpis, some kf, some risks, some ucs =>
        match canvasFieldListValidate (rowToJson row kpis kf risks ucs) with
        | some cfl =>
          .ok (some (dictPop (dictPop (cflDumpObj cfl) "governance".data)
            "relevant_facts".data))
        | none => .ok none
      | _, _, _, _ =>
        .error (.valueError "Expecting value in stored list entry".data)
  else .ok none

/-- The outcome of a `ResponsesService.send_message` call, seen from the
route.  The service wraps the external LLM, so route-level theorems
quantify over this boundary; `responses_send` below gives the faithful
instantiation. -/
inductive SvcOutcome where
  | ok (thread_id chat : Chars) (canvas : JVal)
  | valueError (msg : Chars)
  | genericError (msg : Chars)

/-- What a route call returns to the HTTP layer. -/
inductive SendResult where
  | ok (chat : Chars) (canvas : Option JVal)
  | httpError (code : Nat) (detail : Chars)

/-- Result, store state, and whether the LLM boundary was reached. -/
structure SendOut where
  result : SendResult
  db : DB
  llm_called : Bool

/-- Failure injection for the four writes of the persistence block
(api/chat_routes.py:116-127); a raising store call rolls itself back, and
the first raise ends the block. -/
structure PersistFail where
  update_canvas : Bool
  upsert : Bool
  toggle : Bool
  update_status : Bool
deriving DecidableEq

/-- All four persistence writes succeed. -/
def PersistFail.noFail : PersistFail := ⟨false, false, false, false⟩

/-- Update the canvas header row in place, when one exists. -/
def mapCanvas (db : DB) (f : CanvasRow → CanvasRow) : DB :=
  { db with canvas := db.canvas.map f }

/-- `add_file_to_canvas` for each uploaded file (api/chat_routes.py:66). -/
def addFiles (db : DB) (fids : List Chars) : DB :=
  mapCanvas db (fun c => { c with file_ids := c.file_ids ++ fids })

/-- The name written by `update_canvas` during the persistence block:
`canvas_json.get("Title")` rendered into the text column. -/
def titleNameOf (o : List (Chars × JVal)) : Option Chars :=
  match lookupKey o "Title".data with
  | some (.str s) => some s
  | some .null => none
  | none => none
  | some v => some (pyStr v)

/-- The persistence block of `send_message` (api/chat_routes.py:116-127):
`update_canvas` (name from the canvas JSON's Title, new thread id), then
`upsert_canvas_fields`, then `toggle_manual_update(False)`, then
`update_status` when the fetched status was `created`.  Any raise is
caught and logged and the block ends; a non-dict canvas JSON makes the
first step raise. -/
def persistBlock (db : DB) (origStatus : Chars) (thread : Chars) (cj : JVal)
    (pf : PersistFail) : DB :=
  if pf.update_canvas then db
  else
    match cj with
    | .obj o =>
      let db1 := mapCanvas db
        (fun c => { c with name := titleNameOf o, thread_id := some thread })
      if pf.upsert then db1
      else
        let db2 := { db1 with fields := some (upsert_canvas_fields o) }
        if pf.toggle then db2
        else
          let db3 := toggle_manual_update db2 false
          if pf.update_status then db3
          else if origStatus = "created".data then
            mapCanvas db3 (fun c => { c with status := "drafted".data })
          else db3
    | _ => db

/-- The fixed fallback reply for an empty message
(api/chat_routes.py:46). -/
def fallbackReply : Chars :=
  ("Please enter a valid problem statement. Message cannot be empty or " ++
   "whitespace.").data

/-- `send_message` (api/chat_routes.py:22): empty-message short circuit,
404 on a missing canvas, file upload, the manual-override branch, the
service call (`svc` is the boundary to `ResponsesService.send_message`,
which wraps the external LLM), advisory validation, and the
failure-swallowing persistence block.  `llm_called` is true exactly when
the turn reaches the service boundary. -/
def send_message (db : DB) (message : Chars) (file_ids : List Chars)
    (upload_fails : Bool) (svc : SvcOutcome) (pf : PersistFail) : SendOut :=
  if pyStrip message = [] then
    { result := .ok fallbackReply none, db := db, llm_called := false }
  else
    match db.canvas with
    | none =>
      { result := .httpError 404 "Canvas session not found".data, db := db,
        llm_called := false }
    | some canvas =>
      if upload_fails ∧ file_ids ≠ [] then
        { result := .httpError 422 "File upload rejected".data, db := db,
          llm_called := false }
      else
        let db1 := if file_ids.isEmpty then db else addFiles db file_ids
        let is_first := canvas.status = "created".data
        match (if is_first then Except.ok none else manualBranch db1) with
        | .error (.valueError m) =>
          { result := .httpError 422 ("Failed to parse response: ".data ++ m),
            db := db1, llm_called := false }
        | .error (.typeError m) =>
          { result := .httpError 500
              ("Failed to process message: ".data ++ m),
            db := db1, llm_called := false }
        | .ok _ctx =>
          match svc with
          | .valueError m =>
            { result := .httpError 422
                ("Failed to parse response: ".data ++ m),
              db := db1, llm_called := true }
          | .genericError m =>
            { result := .httpError 500
                ("Failed to process message: ".data ++ m),
              db := db1, llm_called := true }
          | .ok thread chat cj =>
            let db2 := persistBlock db1 canvas.status thread cj pf
            { result := .ok chat (some cj), db := db2, llm_called := true }

/-- `ResponsesService.send_message` (services/responses_service.py:35) at
the prompt/parse level, with the raw LLM output and new response id as the
external oracle.  On a first message the dual response is parsed (a
failure is the ValueError the route maps to 422).  On any other message
the call `get_refinement_prompt(message, current_canvas_json)` at line 81
raises TypeError before the LLM request is issued, because the builder
takes exactly one parameter (utils/prompts.py:115). -/
def responses_send (is_first : Bool) (raw new_id : Chars) : SvcOutcome :=
  if is_first then
    match parse_dual_response raw with
    | .ok chat j => .ok new_id chat j
    | .err m => .valueError m
  else
    .genericError ("get_refinement_prompt() takes 1 positional argument " ++
      "but 2 were given").data

/-- The `is_first` test the route performs on the fetched canvas row,
as a boolean for the service layer. -/
def isFirstOf (db : DB) : Bool :=
  match db.canvas with
  | some c => c.status == "created".data
  | none => false

/-- The route composed with the faithful service behaviour. -/
def send_message_full (db : DB) (message : Chars) (file_ids : List Chars)
    (upload_fails : Bool) (raw new_id : Chars) (pf : PersistFail) : SendOut :=
  send_message db message file_ids upload_fails
    (responses_send (isFirstOf db) raw new_id) pf

/-- Result and store state of a `save_canvas` call. -/
structure SaveOut where
  result : SendResult
  db : DB

/-- `save_canvas` (api/chat_routes.py:153): FastAPI validates the body as
a `CanvasFieldList` (422 on failure), then 404 when the canvas is absent;
the dump (`by_alias`, `exclude_unset`) is written through
`upsert_canvas_fields` after an optional name sync, and the
manual-override flag is set (the flag write is the spec-modelled
`toggle_manual_update`; in the source that method does not exist on
`PostgresStore`). -/
def save_canvas (db : DB) (body : List (Chars × JVal)) : SaveOut :=
  match canvasFieldListValidate body with
  | none =>
    { result := .httpError 422 "CanvasFieldList validation failed".data,
      db := db }
  | some cfl =>
    match db.canvas with
    | none =>
      { result := .httpError 404 "Canvas session not found".data, db := db }
    | some canvas =>
      let canvas_dict := cflDumpByAliasExcludeUnset cfl
      let db1 :=
        match lookupKey canvas_dict "Title".data with
        | some (.str t) =>
          if t ≠ [] ∧ some t ≠ canvas.name then
            { db with canvas := some { canvas with name := some t } }
          else db
        | _ => db
      let db2 := { db1 with fields := some (upsert_canvas_fields canvas_dict) }
      let db3 := toggle_manual_update db2 true
      { result := .ok "Canvas updated successfully".data none, db := db3 }

/-- A canvas row with new name and thread reference, as written by
`update_canvas` during a turn. -/
def setNameThread (c : CanvasRow) (nm : Option Chars) (t : Chars) :
    CanvasRow :=
  { c with name := nm, thread_id := some t }

/-- A fresh canvas row as `create_canvas` makes it. -/
def wRow0 : CanvasRow :=
  ⟨some "Untitled Canvas".data, "created".data, none, []⟩

/-- A store holding only the fresh canvas. -/
def wDB0 : DB := ⟨some wRow0, none, false⟩

/-- A drafted canvas row with one completed turn. -/
def wRow1 : CanvasRow := ⟨some "N".data, "drafted".data, some "r1".data, []⟩

/-- A store holding the drafted canvas, no manual override pending. -/
def wDB1 : DB := ⟨some wRow1, none, false⟩

/-- A serialised fields row with empty sections, for concrete turns. -/
def wFields : FieldsRow :=
  ⟨some "Old".data, none, [], [], [], [], [], [], [],
   "\x7b\x7d".data, [], "\x7b\x7d".data, []⟩

/-- A drafted canvas with a stored fields row (counterexample state for the
persistence-failure claims). -/
def c8DB : DB :=
  ⟨some ⟨some "Old".data, "drafted".data, some "resp_1".data, []⟩,
   some wFields, false⟩

/-- The four-bucket Non Functional Requirements object the pydantic model
requires. -/
def nfrBuckets : JVal :=
  .obj [("Performance & Scalability".data, .arr []),
        ("Data Quality & Integration".data, .arr []),
        ("Reliability".data, .arr []),
        ("Security/Compliance/Privacy".data, .arr [])]

/-- A valid direct-edit body for `save_canvas`, keyed by the spaced
aliases, with one KPI record. -/
def c1Body : List (Chars × JVal) :=
  [("Title".data, .str "Dorm Eats v2".data),
   ("Problem Statement".data, .str "Students need meals.".data),
   ("Objectives".data, .arr [.str "Increase adoption".data]),
   ("KPIs".data, .arr [.obj [("metric".data, .str "Orders".data),
     ("baseline".data, .str "0".data), ("target".data, .str "100".data),
     ("measurement_frequency".data, .str "Weekly".data)]]),
   ("Success Criteria".data, .arr []),
   ("Key Features".data, .arr []),
   ("Risks".data, .arr []),
   ("Assumptions".data, .arr []),
   ("Non Functional Requirements".data, nfrBuckets),
   ("Use Cases".data, .arr []),
   ("Governance".data, .null),
   ("Relevant Facts".data, .arr [])]

/-- A drafted canvas about to receive a direct edit. -/
def c1DB : DB :=
  ⟨some ⟨some "Dorm Eats".data, "drafted".data, some "resp_1".data, []⟩,
   none, false⟩

/-- A perfectly well-formed dual response: even this cannot make a
refinement turn succeed. -/
def c1Raw : Chars :=
  ("---CHAT_RESPONSE---\nAdded.\n\n---CANVAS_JSON---\n" ++
   "\x7b\"Title\": \"X\"\x7d").data

/-- The TypeError message of the arity mismatch at
services/responses_service.py:81. -/
def refinementTypeErrMsg : Chars :=
  ("get_refinement_prompt() takes 1 positional argument " ++
   "but 2 were given").data

/-- A raw text with the canvas marker and valid JSON but no chat marker. -/
def c4Input : Chars := "hello---CANVAS_JSON---\x7b\"a\": 1\x7d".data

/-- A raw text with both markers for the C4 witness. -/
def c4WitnessInput : Chars :=
  "---CHAT_RESPONSE---Hi---CANVAS_JSON---\x7b\"k\": [1]\x7d".data

/-- A candidate canvas with the ten non-governance keys present and
correctly typed and every list empty — minimal and well-formed under the
spec's data model, where governance is optional. -/
def c5NoGov : List (Chars × JVal) :=
  [("Title".data, .str "T".data),
   ("Problem Statement".data, .str "P".data),
   ("Objectives".data, .arr []), ("KPIs".data, .arr []),
   ("Success Criteria".data, .arr []), ("Key Features".data, .arr []),
   ("Risks".data, .arr []), ("Assumptions".data, .arr []),
   ("Non Functional Requirements".data, .arr []),
   ("Use Cases".data, .arr [])]

/-- The same candidate with a governance object added: all eleven keys the
source validator requires. -/
def c5AllKeys : List (Chars × JVal) :=
  c5NoGov ++ [("Governance".data, .obj [])]

/-- The delimiter `_extract_user_message` uses to find the start of an
initial-prompt user message. -/
def upsMarker : Chars := "USER PROBLEM STATEMENT:".data

/-- The fixed text of the initial prompt after the user message. -/
def initialTail : Chars :=
  ("\n\nPlease generate a comprehensive Business Model Canvas based on " ++
   "this problem statement and any uploaded documents.\n\nRemember to " ++
   "provide your response in the required format:\n---CHAT_RESPONSE---\n" ++
   "[Your response]\n\n---CANVAS_JSON---\n[Complete JSON]").data

/-- The text of the initial prompt after the `\n\nPlease generate`
delimiter the extractor cuts at. -/
def initialTail2 : Chars :=
  (" a comprehensive Business Model Canvas based on " ++
   "this problem statement and any uploaded documents.\n\nRemember to " ++
   "provide your response in the required format:\n---CHAT_RESPONSE---\n" ++
   "[Your response]\n\n---CANVAS_JSON---\n[Complete JSON]").data

/-- Messages whose history extraction round-trips: the message contains
neither of the extractor's delimiter substrings (`USER PROBLEM
STATEMENT:` and `\n\nPlease generate`) and stripping leaves it unchanged
(no leading or trailing whitespace).  Decidable, so a witness can check it
on concrete messages. -/
def avoidsDelimiters (m : Chars) : Prop :=
  containsSub m upsMarker = false ∧
  containsSub m "\n\nPlease generate".data = false ∧
  pyStrip m = m

/-- A well-formed dual response used in the history counterexample. -/
def c6Raw : Chars :=
  "---CHAT_RESPONSE---\nDone\n\n---CANVAS_JSON---\n\x7b\"a\": 1\x7d".data

/-- What `get_conversation_history` actually stores as the user entry of a
refinement turn whose message was `Add one more KPI`: the message plus the
whole trailing refinement-prompt wrapper (the extractor looks for
`REFINEMENT INSTRUCTIONS:`, which the template does not contain). -/
def c6BadContent : Chars :=
  ("Add one more KPI\n\nPlease refine the Business Model Canvas based on " ++
   "this feedback and provide your response in the required format:\n" ++
   "---CHAT_RESPONSE---\n[Your response. Clearly mention which sections " ++
   "have been updated.]\n\n---CANVAS_JSON---\n[Updated complete JSON]").data

/-- The empty-message short circuit, shared by several claims below. -/
theorem send_message_of_empty (db : DB) (message : Chars) (fids : List Chars)
    (uf : Bool) (svc : SvcOutcome) (pf : PersistFail)
    (h : pyStrip message = []) :
    send_message db message fids uf svc pf =
      ⟨.ok fallbackReply none, db, false⟩ := by
  unfold send_message
  rw [if_pos h]

/-- C9: for every message that is empty or whitespace-only, `send_message`
returns the fixed fallback chat reply with no canvas, makes no LLM call,
and leaves the store completely untouched. -/
theorem c9_empty_message_short_circuit (db : DB) (message : Chars)
    (fids : List Chars) (uf : Bool) (svc : SvcOutcome) (pf : PersistFail)
    (h : pyStrip message = []) :
    send_message db message fids uf svc pf =
      ⟨.ok fallbackReply none, db, false⟩ :=
  send_message_of_empty db message fids uf svc pf h

/-- Witness for C9 at the three-space message. -/
theorem c9_empty_message_short_circuit_witness :
    pyStrip "   ".data = [] ∧
    send_message ⟨none, none, false⟩ "   ".data [] false
      (.genericError []) PersistFail.noFail =
      ⟨.ok fallbackReply none, ⟨none, none, false⟩, false⟩ :=
  ⟨by rfl, c9_empty_message_short_circuit _ _ _ _ _ _ (by rfl)⟩

/-- C10: the emptiness check runs before the existence lookup: an empty
message always yields the fallback response and never an HTTP error, even
when no canvas exists; an unknown canvas is reported 404 only for a
non-empty message. -/
theorem c10_empty_before_existence :
    (∀ (db : DB) (message : Chars) (fids : List Chars) (uf : Bool)
      (svc : SvcOutcome) (pf : PersistFail), pyStrip message = [] →
      (send_message db message fids uf svc pf).result =
        .ok fallbackReply none
      ∧ ∀ code d,
        (send_message db message fids uf svc pf).result ≠ .httpError code d)
    ∧ (∀ (db : DB) (message : Chars) (fids : List Chars) (uf : Bool)
      (svc : SvcOutcome) (pf : PersistFail), pyStrip message ≠ [] →
      db.canvas = none →
      (send_message db message fids uf svc pf).result =
        .httpError 404 "Canvas session not found".data) := by
  constructor
  · intro db message fids uf svc pf h
    rw [send_message_of_empty db message fids uf svc pf h]
    exact ⟨rfl, fun _ _ hcontra => nomatch hcontra⟩
  · intro db message fids uf svc pf h hc
    unfold send_message
    rw [if_neg h, hc]

/-- Witness for C10: an unknown canvas with an empty and with a non-empty
message. -/
theorem c10_empty_before_existence_witness :
    (send_message ⟨none, none, false⟩ " \t".data [] false
      (.genericError []) PersistFail.noFail).result = .ok fallbackReply none
    ∧ (send_message ⟨none, none, false⟩ "hi".data [] false
      (.genericError []) PersistFail.noFail).result =
      .httpError 404 "Canvas session not found".data :=
  ⟨(c10_empty_before_existence.1 _ _ _ _ _ _ (by rfl)).1,
   c10_empty_before_existence.2 _ _ _ _ _ _ (by decide) (by rfl)⟩

/-- The route's first-message test is true on a created canvas. -/
theorem isFirstOf_eq_true (db : DB) (c : CanvasRow) (hc : db.canvas = some c)
    (hfirst : c.status = "created".data) : isFirstOf db = true := by
  unfold isFirstOf
  rw [hc]
  simp [hfirst]

/-- On a first message the service surfaces a dual-parse failure as the
ValueError outcome. -/
theorem responses_send_first_err (raw new_id m : Chars)
    (h : parse_dual_response raw = .err m) :
    responses_send true raw new_id = .valueError m := by
  simp [responses_send, h]

/-- Adding file references never changes the status column. -/
theorem addFiles_canvas_status (db : DB) (f : List Chars) :
    ((addFiles db f).canvas.map CanvasRow.status) =
      db.canvas.map CanvasRow.status := by
  cases h : db.canvas <;> simp [addFiles, mapCanvas, h]

/-- The persistence block either leaves the status column as it was or,
when the fetched status was `created`, sets it to `drafted`. -/
theorem persistBlock_status_cases (db : DB) (c : CanvasRow) (orig t : Chars)
    (cj : JVal) (pf : PersistFail) (hc : db.canvas = some c) :
    ((persistBlock db orig t cj pf).canvas.map CanvasRow.status) =
      some c.status
    ∨ (orig = "created".data ∧
      ((persistBlock db orig t cj pf).canvas.map CanvasRow.status) =
        some "drafted".data) := by
  unfold persistBlock
  split
  · left; rw [hc]; rfl
  · split
    · dsimp only
      split
      · left; simp [mapCanvas, hc]
      · split
        · left; simp [mapCanvas, hc]
        · split
          · left; simp [toggle_manual_update, mapCanvas, hc]
          · split
            · rename_i horig
              right
              exact ⟨horig, by simp [mapCanvas, toggle_manual_update, hc]⟩
            · left; simp [mapCanvas, toggle_manual_update, hc]
    · left; rw [hc]; rfl

/-- With no write failing and a dict canvas payload, the block leaves a
created or drafted canvas in status `drafted`. -/
theorem persistBlock_noFail_status (db : DB) (c : CanvasRow) (t : Chars)
    (o : List (Chars × JVal)) (hc : db.canvas = some c)
    (hst : c.status = "created".data ∨ c.status = "drafted".data) :
    ((persistBlock db c.status t (.obj o)
      PersistFail.noFail).canvas.map CanvasRow.status) =
      some "drafted".data := by
  cases hst with
  | inl h =>
    simp [persistBlock, PersistFail.noFail, mapCanvas, toggle_manual_update,
      hc, h]
  | inr h =>
    have hne : ¬ (c.status = "created".data) := by rw [h]; decide
    simp [persistBlock, PersistFail.noFail, mapCanvas, toggle_manual_update,
      hc, hne, h]

/-- When only the fields upsert raises, the block commits exactly the
name/thread write. -/
theorem persistBlock_upsert_fail (db : DB) (c : CanvasRow) (orig t : Chars)
    (o : List (Chars × JVal)) (hc : db.canvas = some c) :
    persistBlock db orig t (.obj o) ⟨false, true, false, false⟩ =
      { db with canvas := some (setNameThread c (titleNameOf o) t) } := by
  unfold persistBlock
  simp [mapCanvas, hc, setNameThread]

/-- C3: a freshly created canvas has status `created`; a successful turn
(non-empty message, dual response parsed into a dict, no persistence
failure) leaves the canvas in status `drafted`, whether it was `created`
or already `drafted`; and in full generality a turn either leaves the
status column unchanged or moves it from `created` to `drafted` — the
transition is one-way and performed by the turn's persistence step. -/
theorem c3_status_state_machine :
    (create_canvas_row.status = "created".data)
    ∧ (∀ (db : DB) (c : CanvasRow) (msg t ch : Chars)
        (o : List (Chars × JVal)) (ctx : Option (List (Chars × JVal))),
        db.canvas = some c →
        (c.status = "created".data ∨ c.status = "drafted".data) →
        pyStrip msg ≠ [] →
        (if c.status = "created".data then Except.ok none
         else manualBranch db) = Except.ok ctx →
        ((send_message db msg [] false (.ok t ch (.obj o))
          PersistFail.noFail).db.canvas.map CanvasRow.status) =
          some "drafted".data)
    ∧ (∀ (db : DB) (msg : Chars) (fids : List Chars) (uf : Bool)
        (svc : SvcOutcome) (pf : PersistFail),
        ((send_message db msg fids uf svc pf).db.canvas.map
          CanvasRow.status) = (db.canvas.map CanvasRow.status)
        ∨ ((db.canvas.map CanvasRow.status) = some "created".data ∧
          ((send_message db msg fids uf svc pf).db.canvas.map
            CanvasRow.status) = some "drafted".data)) := by
  refine ⟨rfl, ?_, ?_⟩
  · intro db c msg t ch o ctx hc hst hmsg hmb
    unfold send_message
    rw [if_neg hmsg]
    simp only [hc]
    dsimp only
    have hdb1 : (if ([] : List Chars).isEmpty = true then db
        else addFiles db []) = db := rfl
    rw [hdb1, hmb]
    exact persistBlock_noFail_status db c t o hc hst
  · intro db msg fids uf svc pf
    by_cases hmsg : pyStrip msg = []
    · left; rw [send_message_of_empty db msg fids uf svc pf hmsg]
    · unfold send_message
      rw [if_neg hmsg]
      cases hcv : db.canvas with
      | none => left; simp only [hcv]
      | some c =>
        simp only [hcv]
        dsimp only
        have hdb1 : ((if fids.isEmpty = true then db
            else addFiles db fids).canvas.map CanvasRow.status) =
            some c.status := by
          split
          · simp [hcv]
          · rw [addFiles_canvas_status]; simp [hcv]
        split
        · left; simp [hcv]
        · split
          · left; simpa using hdb1
          · left; simpa using hdb1
          · split
            · left; simpa using hdb1
            · left; simpa using hdb1
            · rename_i thread chat cj
              rcases hdb1c : (if fids.isEmpty = true then db
                  else addFiles db fids).canvas with _ | c1
              · rw [hdb1c] at hdb1; cases hdb1
              · have hc1 : c1.status = c.status := by
                  rw [hdb1c] at hdb1; simpa using hdb1
                rcases persistBlock_status_cases _ c1 c.status thread cj pf
                    hdb1c with hl | ⟨ho, hr⟩
                · left
                  rw [hl, hc1]
                  simp
                · right
                  refine ⟨by simp [ho], hr⟩

/-- Witness for C3: a first turn on a created canvas and a later turn on a
drafted canvas both end with status `drafted`. -/
theorem c3_status_state_machine_witness :
    ((send_message wDB0 "Build it".data [] false
      (.ok "resp_2".data "Done".data (.obj []))
      PersistFail.noFail).db.canvas.map CanvasRow.status) =
      some "drafted".data
    ∧ ((send_message wDB1 "Refine it".data [] false
      (.ok "resp_3".data "Done".data (.obj []))
      PersistFail.noFail).db.canvas.map CanvasRow.status) =
      some "drafted".data :=
  ⟨c3_status_state_machine.2.1 wDB0 wRow0 _ _ _ [] none rfl (Or.inl rfl)
    (by decide) rfl,
   c3_status_state_machine.2.1 wDB1 wRow1 _ _ _ [] none rfl (Or.inr rfl)
    (by decide) rfl⟩

/-- C7: whenever the raw LLM response cannot be parsed (missing canvas
marker or malformed JSON), the turn surfaces a 422 failure with the
parse-error detail and the store — fields, status, thread reference and
manual-override flag — is exactly as before the turn. -/
theorem c7_parse_failure_atomicity (db : DB) (c : CanvasRow)
    (msg raw new_id m : Chars) (pf : PersistFail)
    (hc : db.canvas = some c) (hfirst : c.status = "created".data)
    (hmsg : pyStrip msg ≠ [])
    (hraw : parse_dual_response raw = .err m) :
    send_message_full db msg [] false raw new_id pf =
      ⟨.httpError 422 ("Failed to parse response: ".data ++ m), db, true⟩ := by
  unfold send_message_full
  rw [isFirstOf_eq_true db c hc hfirst,
    responses_send_first_err raw new_id m hraw]
  unfold send_message
  rw [if_neg hmsg]
  simp only [hc]
  rw [if_pos hfirst]
  rfl

/-- Witness for C7: a markerless raw response on a fresh canvas. -/
theorem c7_parse_failure_atomicity_witness :
    send_message_full wDB0 "hello".data [] false "no markers here".data
      "resp_2".data PersistFail.noFail =
      ⟨.httpError 422 ("Failed to parse response: ".data ++
        ("Failed to parse dual response: Response does not contain both " ++
         "CHAT_RESPONSE and CANVAS_JSON sections").data), wDB0, true⟩ :=
  c7_parse_failure_atomicity wDB0 wRow0 _ _ _ _ PersistFail.noFail rfl rfl
    (by decide) rfl

/-- Counterexample to C8 as stated: on a drafted canvas the fields upsert
fails mid-block, yet the turn returns a success response, the name and
thread reference are already rewritten, and the old fields row is still in
place — a partial commit surfaced as success. -/
theorem c8_partial_persist_counterexample :
    (send_message c8DB "Polish the plan".data [] false
      (.ok "resp_2".data "Done".data (.obj [("Title".data, .str "New".data)]))
      ⟨false, true, false, false⟩).result =
      .ok "Done".data (some (.obj [("Title".data, .str "New".data)]))
    ∧ (send_message c8DB "Polish the plan".data [] false
      (.ok "resp_2".data "Done".data (.obj [("Title".data, .str "New".data)]))
      ⟨false, true, false, false⟩).db.canvas =
      some ⟨some "New".data, "drafted".data, some "resp_2".data, []⟩
    ∧ (send_message c8DB "Polish the plan".data [] false
      (.ok "resp_2".data "Done".data (.obj [("Title".data, .str "New".data)]))
      ⟨false, true, false, false⟩).db.fields = some wFields :=
  ⟨rfl, rfl, rfl⟩

/-- C8 as amended: an LLM-side failure before parse is propagated as a
single opaque 500 with no store write at all; but a database failure in
the post-parse persistence block is swallowed — the turn still returns the
success response, and the writes before the failing one (name and thread
reference) remain committed while the fields row is untouched. -/
theorem c8_upstream_failures_amended :
    (∀ (db : DB) (c : CanvasRow) (msg m : Chars) (pf : PersistFail),
      db.canvas = some c → c.status = "created".data → pyStrip msg ≠ [] →
      send_message db msg [] false (.genericError m) pf =
        ⟨.httpError 500 ("Failed to process message: ".data ++ m), db,
         true⟩)
    ∧ (∀ (db : DB) (c : CanvasRow) (msg t ch : Chars)
        (o : List (Chars × JVal)),
      db.canvas = some c → c.status = "created".data → pyStrip msg ≠ [] →
      send_message db msg [] false (.ok t ch (.obj o))
        ⟨false, true, false, false⟩ =
        ⟨.ok ch (some (.obj o)),
         { db with canvas := some (setNameThread c (titleNameOf o) t) },
         true⟩) := by
  constructor
  · intro db c msg m pf hc hfirst hmsg
    unfold send_message
    rw [if_neg hmsg]
    simp only [hc]
    rw [if_pos hfirst]
    rfl
  · intro db c msg t ch o hc hfirst hmsg
    unfold send_message
    rw [if_neg hmsg]
    simp only [hc]
    rw [if_pos hfirst]
    dsimp only
    have hdb1 : (if ([] : List Chars).isEmpty = true then db
        else addFiles db []) = db := rfl
    rw [hdb1, persistBlock_upsert_fail db c c.status t o hc]
    rfl

/-- Witness for C8's amended statement: both conjuncts at the fresh
canvas. -/
theorem c8_upstream_failures_amended_witness :
    send_message wDB0 "hello".data [] false (.genericError "boom".data)
      PersistFail.noFail =
      ⟨.httpError 500 ("Failed to process message: ".data ++ "boom".data),
       wDB0, true⟩
    ∧ send_message wDB0 "hello".data [] false
      (.ok "resp_2".data "Done".data (.obj []))
      ⟨false, true, false, false⟩ =
      ⟨.ok "Done".data (some (.obj [])),
       { wDB0 with canvas := some (setNameThread wRow0 (titleNameOf [])
         "resp_2".data) },
       true⟩ :=
  ⟨c8_upstream_failures_amended.1 wDB0 wRow0 _ _ PersistFail.noFail rfl rfl
    (by decide),
   c8_upstream_failures_amended.2 wDB0 wRow0 _ _ _ [] rfl rfl (by decide)⟩

/-- The type-error accumulator is empty exactly when a present value
passes its check. -/
theorem typeErrOf_eq_nil (p : Option JVal) (good : JVal → Bool) (msg : Chars) :
    (typeErrOf p good msg = []) ↔ (∀ v, p = some v → good v = true) := by
  cases p with
  | none => simp [typeErrOf]
  | some v => by_cases h : good v <;> simp [typeErrOf, h]

/-- The array defect test is false exactly when a present value is a
list. -/
theorem badArrayVal_eq_false (p : Option JVal) :
    (badArrayVal p = false) ↔ (∀ v, p = some v → isArr v = true) := by
  cases p with
  | none => simp [badArrayVal]
  | some v => simp [badArrayVal]

/-- Presence stated through `isNone` versus `isSome`. -/
theorem not_isNone_iff_isSome (p : Option JVal) :
    (¬ p.isNone = true) ↔ p.isSome = true := by
  cases p <;> simp

/-- The array defect test restated positively. -/
theorem not_badArrayVal_iff (p : Option JVal) :
    (¬ badArrayVal p = true) ↔ ∀ v, p = some v → isArr v = true := by
  rw [Bool.not_eq_true, badArrayVal_eq_false]

/-- Counterexample to C4 as stated: a raw text that lacks the
`---CHAT_RESPONSE---` marker entirely, on which `parse_dual_response`
nevertheless succeeds — only the canvas marker is actually required. -/
theorem c4_marker_counterexample :
    containsSub c4Input chatMarker = false
    ∧ parse_dual_response c4Input =
      .ok "hello".data (.obj [("a".data, .num "1".data)]) :=
  ⟨rfl, rfl⟩

/-- C4 as amended: `parse_dual_response` fails exactly when the split on
`---CANVAS_JSON---` does not yield two parts or the post-marker segment
does not parse as JSON; when both hold it returns the trimmed chat
segment (delimited by the chat marker only when one is present) and the
parsed object. -/
theorem c4_dual_marker_amended : ∀ s : Chars,
    ((splitOnSub s canvasMarker).length ≠ 2 →
      (parse_dual_response s).isErr = true)
    ∧ (∀ a b, splitOnSub s canvasMarker = [a, b] →
      (∀ j, parse_json_from_text (pyStrip b) = some j →
        parse_dual_response s = .ok (chatSegment a) j)
      ∧ (parse_json_from_text (pyStrip b) = none →
        (parse_dual_response s).isErr = true)) := by
  intro s
  constructor
  · intro hlen
    unfold parse_dual_response
    rcases hsp : splitOnSub s canvasMarker with _ | ⟨a, tl⟩
    · simp only [hsp]; rfl
    · rcases tl with _ | ⟨b, tl2⟩
      · simp only [hsp]; rfl
      · rcases tl2 with _ | ⟨c2, tl3⟩
        · exact absurd (by rw [hsp]; rfl) hlen
        · simp only [hsp]; rfl
  · intro a b hsp
    constructor
    · intro j hj
      unfold parse_dual_response
      simp only [hsp]
      rw [hj]
    · intro hj
      unfold parse_dual_response
      simp only [hsp]
      rw [hj]
      rfl

/-- Witness for C4's amended statement at a concrete two-marker text. -/
theorem c4_dual_marker_amended_witness :
    parse_dual_response c4WitnessInput =
      .ok "Hi".data (.obj [("k".data, .arr [.num "1".data])]) :=
  ((c4_dual_marker_amended c4WitnessInput).2 "---CHAT_RESPONSE---Hi".data
    "\x7b\"k\": [1]\x7d".data (by rfl)).1 _ (by rfl)

/-- Counterexample to C5 as stated: a minimal canvas with all required
keys present and correctly typed in the sense of the spec's data model —
where governance is optional and absent — is rejected by
`validate_canvas_structure`, which also requires a `Governance` key. -/
theorem c5_validator_counterexample :
    validate_canvas_structure c5NoGov =
      (false, ["Missing required field: \x27Governance\x27".data]) := rfl

/-- C5 as amended: the validator accepts exactly when all eleven source
required keys (including `Governance`) are present, `Title` and `Problem
Statement` are strings when present, every array field holds a list when
present, and `Governance` is an object when present — and an accepting run
reports no reasons. -/
theorem c5_validator_amended (c : List (Chars × JVal)) :
    ((validate_canvas_structure c).1 = true ↔
      ((∀ f ∈ requiredFields, (lookupKey c f).isSome = true)
       ∧ (∀ v, lookupKey c "Title".data = some v → isStr v = true)
       ∧ (∀ v, lookupKey c "Problem Statement".data = some v →
           isStr v = true)
       ∧ (∀ f ∈ arrayFields, ∀ v, lookupKey c f = some v → isArr v = true)
       ∧ (∀ v, lookupKey c "Governance".data = some v → isObj v = true)))
    ∧ ((validate_canvas_structure c).1 = true →
      (validate_canvas_structure c).2 = []) := by
  unfold validate_canvas_structure
  dsimp only
  constructor
  · simp only [List.isEmpty_iff, List.append_eq_nil, List.map_eq_nil_iff,
      List.filter_eq_nil_iff, typeErrOf_eq_nil, not_isNone_iff_isSome,
      not_badArrayVal_iff, and_assoc]
  · simp only [List.isEmpty_iff]
    intro h
    exact h

/-- Witness for C5's amended statement: the canvas with all eleven keys
validates with no reasons. -/
theorem c5_validator_amended_witness :
    (validate_canvas_structure c5AllKeys).2 = [] :=
  (c5_validator_amended c5AllKeys).2 (by rfl)

/-- C1, evaluated at its failing input: the direct edit succeeds and sets
the manual-override flag (through the spec-modelled flag write — the
source's `PostgresStore` has no `toggle_manual_update` method at all); but
the next `send_message` on that canvas, the turn that is supposed to
replay the edited fields into the refinement prompt and then clear the
flag, fails with a 500 before any LLM interaction — the refinement prompt
builder takes one parameter and the service calls it with two — leaving
the store untouched and the flag still set.  The round trip never
completes. -/
theorem c1_manual_override_round_trip_bug :
    (save_canvas c1DB c1Body).result =
      .ok "Canvas updated successfully".data none
    ∧ (save_canvas c1DB c1Body).db.manual_update = true
    ∧ (send_message_full (save_canvas c1DB c1Body).db
      "Add one more KPI".data [] false c1Raw "resp_2".data
      PersistFail.noFail).result =
      .httpError 500 ("Failed to process message: ".data ++
        refinementTypeErrMsg)
    ∧ (send_message_full (save_canvas c1DB c1Body).db
      "Add one more KPI".data [] false c1Raw "resp_2".data
      PersistFail.noFail).db = (save_canvas c1DB c1Body).db
    ∧ (send_message_full (save_canvas c1DB c1Body).db
      "Add one more KPI".data [] false c1Raw "resp_2".data
      PersistFail.noFail).db.manual_update = true :=
  ⟨rfl, rfl, rfl, rfl, rfl⟩

/-- C2, evaluated at its failing input: the service's non-first-message
path never produces a prompt (the two-argument call of
`get_refinement_prompt` raises TypeError), and the builder itself — which
has no canvas parameter — returns the fixed refinement template, which
contains the user message and nothing of any canvas. -/
theorem c2_refinement_prompt_bug :
    responses_send false c1Raw "resp_9".data =
      .genericError refinementTypeErrMsg
    ∧ get_refinement_prompt "Add one more KPI".data =
      ("USER MESSAGE: Add one more KPI\n\nPlease refine the Business " ++
       "Model Canvas based on this feedback and provide your response in " ++
       "the required format:\n---CHAT_RESPONSE---\n[Your response. " ++
       "Clearly mention which sections have been updated.]\n\n" ++
       "---CANVAS_JSON---\n[Updated complete JSON]").data :=
  ⟨rfl, rfl⟩

/-- A list is a prefix of itself followed by anything. -/
theorem isPrefixOf_self_append (l r : Chars) :
    l.isPrefixOf (l ++ r) = true := by
  induction l with
  | nil => simp [List.isPrefixOf]
  | cons a tl ih => simp [List.isPrefixOf, ih]

/-- Containment holds at a prefix. -/
theorem containsSub_of_prefix (s sub : Chars) (h : sub.isPrefixOf s = true) :
    containsSub s sub = true := by
  unfold containsSub
  rw [if_pos h]

/-- A prefix check fails on a head mismatch. -/
theorem isPrefixOf_head_ne (s : Char) (st : Chars) (c : Char) (l : Chars)
    (h : s ≠ c) : ((s :: st).isPrefixOf (c :: l)) = false := by
  simp [List.isPrefixOf]
  intro heq
  exact absurd heq h

/-- A prefix of an append no longer than the left part is a prefix of the
left part. -/
theorem isPrefixOf_append_left (sep x y : Chars)
    (hlen : sep.length ≤ x.length)
    (h : sep.isPrefixOf (x ++ y) = true) : sep.isPrefixOf x = true := by
  induction sep generalizing x with
  | nil => simp [List.isPrefixOf]
  | cons s st ih =>
    cases x with
    | nil => simp at hlen
    | cons a x2 =>
      have h2 : ((s == a) && st.isPrefixOf (x2 ++ y)) = true := h
      rw [Bool.and_eq_true] at h2
      show ((s == a) && st.isPrefixOf x2) = true
      rw [Bool.and_eq_true]
      exact ⟨h2.1, ih x2 (by simpa using hlen) h2.2⟩

/-- A prefix of an append longer than the left part continues as a prefix
of the right part. -/
theorem isPrefixOf_append_split (sep x y : Chars)
    (hlen : x.length < sep.length)
    (h : sep.isPrefixOf (x ++ y) = true) :
    ((sep.drop x.length).isPrefixOf y) = true := by
  induction x generalizing sep with
  | nil => simpa using h
  | cons a x2 ih =>
    cases sep with
    | nil => simp at hlen
    | cons s st =>
      have h2 : ((s == a) && st.isPrefixOf (x2 ++ y)) = true := h
      rw [Bool.and_eq_true] at h2
      show ((st.drop x2.length).isPrefixOf y) = true
      exact ih st (by simpa using hlen) h2.2

/-- Containment holds at any position, phrased through a suffix. -/
theorem containsSub_of_suffix (x y sep : Chars)
    (hp : sep.isPrefixOf y = true) : containsSub (x ++ y) sep = true := by
  induction x with
  | nil => exact containsSub_of_prefix y sep hp
  | cons a x2 ih =>
    show containsSub (a :: (x2 ++ y)) sep = true
    unfold containsSub
    by_cases hx : sep.isPrefixOf (a :: (x2 ++ y)) = true
    · rw [if_pos hx]
    · rw [if_neg hx]
      exact ih

/-- Text none of whose suffixes starts with the separator does not
contain it. -/
theorem containsSub_eq_false_of_no_suffix (s sep : Chars)
    (h : ∀ x y, s = x ++ y → (sep.isPrefixOf y) = false) :
    containsSub s sep = false := by
  induction s with
  | nil =>
    unfold containsSub
    rw [if_neg (by simp [h [] [] rfl])]
  | cons a tl ih =>
    unfold containsSub
    rw [if_neg (by simp [h [] (a :: tl) rfl])]
    exact ih (fun x y hxy => h (a :: x) y (by rw [hxy]; rfl))

/-- The split scanner passes over a block at none of whose positions the
separator matches — even matches that would run past the block into the
remainder — consuming matching fuel. -/
theorem splitOnAux_skip_of_no_match (sep : Chars) (l r acc : Chars)
    (fuel : Nat)
    (h : ∀ x y, l = x ++ y → y ≠ [] → (sep.isPrefixOf (y ++ r)) = false) :
    splitOnAux sep (l.length + fuel) (l ++ r) acc =
      splitOnAux sep fuel r (l.reverse ++ acc) := by
  induction l generalizing acc with
  | nil => simp
  | cons a tl ih =>
    have hpre : (sep.isPrefixOf ((a :: tl) ++ r)) = false :=
      h [] (a :: tl) rfl (by simp)
    have hpre2 : (sep.isPrefixOf (a :: (tl ++ r))) = false := hpre
    have hlen : (a :: tl).length + fuel = (tl.length + fuel) + 1 := by
      simp [List.length_cons]
      omega
    rw [hlen]
    show (if sep.isPrefixOf (a :: (tl ++ r)) = true then _ else
      splitOnAux sep (tl.length + fuel) (tl ++ r) (a :: acc)) = _
    rw [if_neg (fun hc => Bool.false_ne_true (hpre2.symm.trans hc))]
    rw [ih (a :: acc)
      (fun x y hxy hy => h (a :: x) y (by rw [hxy]; rfl) hy)]
    simp

/-- The split scanner cuts exactly at an occurrence of the separator. -/
theorem splitOnAux_at_sep (sh : Char) (st r acc : Chars) (fuel : Nat) :
    splitOnAux (sh :: st) (fuel + 1) ((sh :: st) ++ r) acc =
      acc.reverse :: splitOnAux (sh :: st) fuel r [] := by
  have hpre : ((sh :: st).isPrefixOf (sh :: (st ++ r))) = true :=
    isPrefixOf_self_append (sh :: st) r
  show (if (sh :: st).isPrefixOf (sh :: (st ++ r)) = true then
      acc.reverse :: splitOnAux (sh :: st) fuel
        ((st ++ r).drop ((sh :: st).length - 1)) []
    else _) = _
  rw [if_pos hpre]
  have : (st ++ r).drop ((sh :: st).length - 1) = r := by
    simp [List.length_cons]
  rw [this]

/-- Without an occurrence of the separator the scanner yields one piece. -/
theorem splitOnAux_no_occ (sep l acc : Chars) (k : Nat)
    (h : containsSub l sep = false) :
    splitOnAux sep (l.length + k) l acc = [acc.reverse ++ l] := by
  induction l generalizing acc k with
  | nil =>
    cases k <;> simp [splitOnAux]
  | cons a tl ih =>
    have hsplit : (sep.isPrefixOf (a :: tl)) = false ∧
        containsSub tl sep = false := by
      unfold containsSub at h
      by_cases hp : sep.isPrefixOf (a :: tl) = true
      · rw [if_pos hp] at h; cases h
      · rw [if_neg hp] at h
        exact ⟨Bool.eq_false_iff.mpr hp, h⟩
    have hlen : (a :: tl).length + k = (tl.length + k) + 1 := by
      simp [List.length_cons]
      omega
    rw [hlen]
    show (if sep.isPrefixOf (a :: tl) = true then _ else
      splitOnAux sep (tl.length + k) tl (a :: acc)) = _
    rw [if_neg (by simp [hsplit.1])]
    rw [ih (a :: acc) k hsplit.2]
    simp

/-- `splitOnAux_at_sep` for any positive fuel. -/
theorem splitOnAux_at_sep_ge (sh : Char) (st r acc : Chars) (f : Nat)
    (hf : 1 ≤ f) :
    splitOnAux (sh :: st) f ((sh :: st) ++ r) acc =
      acc.reverse :: splitOnAux (sh :: st) (f - 1) r [] := by
  obtain ⟨fuel, rfl⟩ : ∃ fuel, f = fuel + 1 := ⟨f - 1, by omega⟩
  rw [splitOnAux_at_sep]
  simp

/-- `splitOnAux_skip_of_no_match` for any sufficient fuel. -/
theorem splitOnAux_skip_of_no_match_ge (sep : Chars) (l r acc : Chars)
    (f : Nat) (hf : l.length ≤ f)
    (h : ∀ x y, l = x ++ y → y ≠ [] → (sep.isPrefixOf (y ++ r)) = false) :
    splitOnAux sep f (l ++ r) acc =
      splitOnAux sep (f - l.length) r (l.reverse ++ acc) := by
  obtain ⟨k, hk⟩ : ∃ k, f = l.length + k := ⟨f - l.length, by omega⟩
  subst hk
  rw [splitOnAux_skip_of_no_match sep l r acc k h]
  simp

/-- `splitOnAux_no_occ` for any sufficient fuel. -/
theorem splitOnAux_no_occ_ge (sep l acc : Chars) (f : Nat)
    (hf : l.length ≤ f) (h : containsSub l sep = false) :
    splitOnAux sep f l acc = [acc.reverse ++ l] := by
  obtain ⟨k, hk⟩ : ∃ k, f = l.length + k := ⟨f - l.length, by omega⟩
  subst hk
  exact splitOnAux_no_occ sep l acc k h

/-- A leading space does not change the result of `strip`. -/
theorem pyStrip_cons_space (m : Chars) : pyStrip (' ' :: m) = pyStrip m := by
  unfold pyStrip
  have : (' ' :: m).dropWhile pyIsSpace = m.dropWhile pyIsSpace := by
    simp [List.dropWhile, pyIsSpace]
  rw [this]

/-- The initial prompt decomposed around the extractor's first delimiter. -/
theorem initial_prompt_decomp (m : Chars) :
    get_initial_canvas_prompt m =
      upsMarker ++ (' ' :: (m ++ initialTail)) := by
  have h1 : "USER PROBLEM STATEMENT: ".data = upsMarker ++ [' '] := by rfl
  show "USER PROBLEM STATEMENT: ".data ++ m ++ initialTail = _
  rw [h1]
  simp [List.append_assoc]

set_option maxRecDepth 4096 in
/-- The template text after the user message contains no occurrence of the
first delimiter (it has no capital U at all). -/
theorem tail_no_marker : containsSub initialTail upsMarker = false := by rfl

set_option maxRecDepth 4096 in
/-- No proper final part of the first delimiter begins the template tail,
so an occurrence of the delimiter cannot straddle the boundary between the
user message and the template text that follows it. -/
theorem marker_drop_not_prefix_tail :
    ∀ k, k < 23 → ((upsMarker.drop k).isPrefixOf initialTail) = false := by
  decide

set_option maxRecDepth 4096 in
/-- No proper final part of the second delimiter begins the template text
at the cut point, so an occurrence of that delimiter cannot straddle the
boundary either. -/
theorem pg_drop_not_prefix :
    ∀ k, k < 17 → 1 ≤ k →
      (("\n\nPlease generate".data.drop k).isPrefixOf
        ("\n\nPlease generate".data ++ initialTail2)) = false := by
  decide

/-- If the message does not contain `USER PROBLEM STATEMENT:`, neither
does the rest of the initial prompt after its leading delimiter: any
occurrence would have to sit at the head space, inside the message,
straddle into the template tail, or sit inside the tail, and each case is
impossible. -/
theorem no_marker_in_rest (m : Chars)
    (h1 : containsSub m upsMarker = false) :
    ∀ x y, (' ' :: (m ++ initialTail)) = x ++ y →
      (upsMarker.isPrefixOf y) = false := by
  intro x y hxy
  by_cases hy : upsMarker.isPrefixOf y = true
  · exfalso
    cases x with
    | nil =>
      rw [List.nil_append] at hxy
      rw [← hxy] at hy
      have hne : (('U' :: "SER PROBLEM STATEMENT:".data).isPrefixOf
          (' ' :: (m ++ initialTail))) = false :=
        isPrefixOf_head_ne 'U' _ ' ' _ (by decide)
      have hy2 : (('U' :: "SER PROBLEM STATEMENT:".data).isPrefixOf
          (' ' :: (m ++ initialTail))) = true := hy
      exact Bool.false_ne_true (hne.symm.trans hy2)
    | cons a x2 =>
      rw [List.cons_append] at hxy
      injection hxy with ha hmx
      rcases List.append_eq_append_iff.mp hmx.symm with
        ⟨m2, hm, hy2⟩ | ⟨t1, hx2, ht⟩
      · subst hy2
        have h23 : upsMarker.length = 23 := rfl
        by_cases hk : upsMarker.length ≤ m2.length
        · have hp2 : upsMarker.isPrefixOf m2 = true :=
            isPrefixOf_append_left _ _ _ hk hy
          have hc : containsSub m upsMarker = true := by
            rw [hm]
            exact containsSub_of_suffix x2 m2 upsMarker hp2
          exact Bool.false_ne_true (h1.symm.trans hc)
        · have hdrop : ((upsMarker.drop m2.length).isPrefixOf initialTail)
              = true :=
            isPrefixOf_append_split _ _ _ (by omega) hy
          have hfalse := marker_drop_not_prefix_tail m2.length (by omega)
          exact Bool.false_ne_true (hfalse.symm.trans hdrop)
      · have hc : containsSub initialTail upsMarker = true := by
          rw [ht]
          exact containsSub_of_suffix t1 y upsMarker hy
        exact Bool.false_ne_true (tail_no_marker.symm.trans hc)
  · exact Bool.eq_false_iff.mpr hy

/-- If the message does not contain `\n\nPlease generate`, no occurrence
of that delimiter begins before the template's own occurrence: not at the
head space, not inside the message, and not straddling into the template
text. -/
theorem no_pg_in_msg (m : Chars)
    (h2 : containsSub m "\n\nPlease generate".data = false) :
    ∀ x y, (' ' :: m) = x ++ y → y ≠ [] →
      (("\n\nPlease generate".data).isPrefixOf
        (y ++ ("\n\nPlease generate".data ++ initialTail2))) = false := by
  intro x y hxy hy0
  by_cases hy : ("\n\nPlease generate".data).isPrefixOf
      (y ++ ("\n\nPlease generate".data ++ initialTail2)) = true
  · exfalso
    cases x with
    | nil =>
      rw [List.nil_append] at hxy
      rw [← hxy, List.cons_append] at hy
      have hne : (('\n' :: "\nPlease generate".data).isPrefixOf
          (' ' :: (m ++ ("\n\nPlease generate".data ++ initialTail2))))
          = false :=
        isPrefixOf_head_ne '\n' _ ' ' _ (by decide)
      have hy2 : (('\n' :: "\nPlease generate".data).isPrefixOf
          (' ' :: (m ++ ("\n\nPlease generate".data ++ initialTail2))))
          = true := hy
      exact Bool.false_ne_true (hne.symm.trans hy2)
    | cons a x2 =>
      rw [List.cons_append] at hxy
      injection hxy with ha hmx
      have h17 : ("\n\nPlease generate".data).length = 17 := rfl
      by_cases hk : ("\n\nPlease generate".data).length ≤ y.length
      · have hp2 : ("\n\nPlease generate".data).isPrefixOf y = true :=
          isPrefixOf_append_left _ _ _ hk hy
        have hc : containsSub m "\n\nPlease generate".data = true := by
          rw [hmx]
          exact containsSub_of_suffix x2 y _ hp2
        exact Bool.false_ne_true (h2.symm.trans hc)
      · have hdrop : ((("\n\nPlease generate".data).drop
            y.length).isPrefixOf
            ("\n\nPlease generate".data ++ initialTail2)) = true :=
          isPrefixOf_append_split _ _ _ (by omega) hy
        have hpos : 1 ≤ y.length := by
          cases y with
          | nil => exact absurd rfl hy0
          | cons b ys => simp
        have hfalse := pg_drop_not_prefix y.length (by omega) hpos
        exact Bool.false_ne_true (hfalse.symm.trans hdrop)
  · exact Bool.eq_false_iff.mpr hy

set_option maxRecDepth 4096 in
/-- The initial prompt splits on `USER PROBLEM STATEMENT:` into an empty
piece and the rest, for a message not containing that delimiter. -/
theorem initial_prompt_split (m : Chars)
    (h1 : containsSub m upsMarker = false) :
    splitOnSub (get_initial_canvas_prompt m)
      "USER PROBLEM STATEMENT:".data = [[], ' ' :: (m ++ initialTail)] := by
  rw [initial_prompt_decomp]
  unfold splitOnSub
  rw [show upsMarker = 'U' :: "SER PROBLEM STATEMENT:".data from rfl]
  rw [splitOnAux_at_sep_ge 'U' "SER PROBLEM STATEMENT:".data
    (' ' :: (m ++ initialTail)) [] _ (by simp)]
  rw [splitOnAux_no_occ_ge ('U' :: "SER PROBLEM STATEMENT:".data) _ _ _
    (by simp [upsMarker])
    (containsSub_eq_false_of_no_suffix _ _ (no_marker_in_rest m h1))]
  simp

set_option maxRecDepth 4096 in
/-- The second split of the extractor cuts the remainder exactly at the
template's `\n\nPlease generate`, for a message not containing that
delimiter. -/
theorem initial_second_split (m : Chars)
    (h2 : containsSub m "\n\nPlease generate".data = false) :
    (splitOnSub (' ' :: (m ++ initialTail))
      "\n\nPlease generate".data).getD 0 [] = ' ' :: m := by
  have hdecomp : (' ' :: (m ++ initialTail)) =
      (' ' :: m) ++ ("\n\nPlease generate".data ++ initialTail2) := by
    rw [show initialTail = "\n\nPlease generate".data ++ initialTail2
      from rfl]
    simp
  rw [hdecomp]
  unfold splitOnSub
  rw [splitOnAux_skip_of_no_match_ge "\n\nPlease generate".data (' ' :: m)
    ("\n\nPlease generate".data ++ initialTail2) [] _ (by simp)
    (no_pg_in_msg m h2)]
  rw [show "\n\nPlease generate".data =
    '\n' :: "\nPlease generate".data from rfl]
  rw [splitOnAux_at_sep_ge '\n' "\nPlease generate".data initialTail2 _ _
    (by simp)]
  simp

/-- For a message avoiding both delimiter substrings and carrying no
surrounding whitespace, the history extractor recovers exactly the
original message from the initial prompt. -/
theorem extract_initial_roundtrip (m : Chars) (hm : avoidsDelimiters m) :
    extract_user_message (get_initial_canvas_prompt m) = m := by
  obtain ⟨h1, h2, hstrip⟩ := hm
  have hcontains : containsSub (get_initial_canvas_prompt m)
      "USER PROBLEM STATEMENT:".data = true := by
    rw [initial_prompt_decomp]
    exact containsSub_of_prefix _ _ (isPrefixOf_self_append _ _)
  have hs1 := initial_prompt_split m h1
  have hs2 := initial_second_split m h2
  unfold extract_user_message
  rw [if_pos hcontains, hs1]
  have hparts : ([[], ' ' :: (m ++ initialTail)] : List Chars).getD 1 [] =
      ' ' :: (m ++ initialTail) := rfl
  dsimp only
  rw [hparts, hs2, pyStrip_cons_space, hstrip]
  rfl

/-- The history walk grows at the front of the chain and the back of the
reconstructed list: the newest turn's entries come last. -/
theorem get_conversation_history_cons (r : Resp) (rest : List Resp) :
    get_conversation_history (r :: rest) =
      get_conversation_history rest ++
        [⟨"user".data, extract_user_message r.input_text⟩,
         ⟨"assistant".data, assistantContentOf r⟩] := by
  show (historyPass (r :: rest)).reverse = _
  rw [show historyPass (r :: rest) =
    ⟨"assistant".data, assistantContentOf r⟩ ::
      ⟨"user".data, extract_user_message r.input_text⟩ :: historyPass rest
    from rfl]
  show _ = (historyPass rest).reverse ++ _
  simp

set_option maxRecDepth 8192 in
/-- Counterexample to C6 as stated: a one-turn chain whose prompt was the
refinement template for the message `Add one more KPI`.  The extractor
looks for `REFINEMENT INSTRUCTIONS:`, which the template never contains,
so the stored user entry is the message plus the entire prompt wrapper —
including the `---CANVAS_JSON---` scaffolding — not the literal message. -/
theorem c6_history_counterexample :
    get_conversation_history
      [⟨c6Raw, get_refinement_prompt "Add one more KPI".data⟩] =
      [⟨"user".data, c6BadContent⟩, ⟨"assistant".data, "Done".data⟩]
    ∧ containsSub c6BadContent
      "Please refine the Business Model Canvas".data = true
    ∧ containsSub c6BadContent "---CANVAS_JSON---".data = true
    ∧ c6BadContent ≠ "Add one more KPI".data :=
  ⟨rfl, rfl, rfl, by decide⟩

/-- C6 as amended: `get_conversation_history` returns the turns oldest
first, each turn contributing its user entry then its assistant entry; for
initial-prompt turns whose message contains neither of the extractor's
delimiter substrings and has no surrounding whitespace, the user entry is
exactly the original message, and the assistant entry is the chat segment
when the stored output parses and the whole raw text when it does not.
(For refinement turns the user entry keeps the prompt wrapper — see the
counterexample.) -/
theorem c6_history_amended (resps : List Resp) (mcs : List (Chars × Chars))
    (h : List.Forall₂ (fun r mc =>
      r.input_text = get_initial_canvas_prompt mc.1 ∧
      avoidsDelimiters mc.1 ∧
      ((∃ j, parse_dual_response r.output_text = .ok mc.2 j) ∨
       ((parse_dual_response r.output_text).isErr = true ∧
        mc.2 = r.output_text))) resps mcs) :
    get_conversation_history resps =
      (mcs.reverse.map (fun mc =>
        ([⟨"user".data, mc.1⟩, ⟨"assistant".data, mc.2⟩] :
          List HistEntry))).flatten := by
  induction h with
  | nil => rfl
  | cons hr htail ih =>
    rename_i r mc resps2 mcs2
    obtain ⟨hin, hclean, hout⟩ := hr
    rw [get_conversation_history_cons, ih]
    have hassist : assistantContentOf r = mc.2 := by
      rcases hout with ⟨j, hok⟩ | ⟨herr, hraw⟩
      · unfold assistantContentOf
        rw [hok]
      · unfold assistantContentOf
        cases hpd : parse_dual_response r.output_text with
        | ok ch j =>
          rw [hpd] at herr
          exact absurd herr (fun hc => Bool.false_ne_true hc)
        | err msg =>
          exact hraw.symm
    have huser : extract_user_message r.input_text = mc.1 := by
      rw [hin]
      exact extract_initial_roundtrip mc.1 hclean
    rw [hassist, huser]
    simp

/-- Witness for C6's amended statement at a concrete two-turn chain: the
older turn's output parses (assistant entry is its chat segment), the
newer turn's output has no canvas marker (assistant entry falls back to
the whole raw text), and both user entries are the original messages,
oldest first. -/
theorem c6_history_amended_witness :
    get_conversation_history
      [⟨"no canvas marker here".data,
        get_initial_canvas_prompt "Make it social".data⟩,
       ⟨("---CHAT_RESPONSE---\nAdded.\n\n---CANVAS_JSON---\n" ++
         "\x7b\"a\": 1\x7d").data,
        get_initial_canvas_prompt "Build a meal app".data⟩] =
      [⟨"user".data, "Build a meal app".data⟩,
       ⟨"assistant".data, "Added.".data⟩,
       ⟨"user".data, "Make it social".data⟩,
       ⟨"assistant".data, "no canvas marker here".data⟩] := by
  rw [c6_history_amended
    [⟨"no canvas marker here".data,
      get_initial_canvas_prompt "Make it social".data⟩,
     ⟨("---CHAT_RESPONSE---\nAdded.\n\n---CANVAS_JSON---\n" ++
       "\x7b\"a\": 1\x7d").data,
      get_initial_canvas_prompt "Build a meal app".data⟩]
    [("Make it social".data, "no canvas marker here".data),
     ("Build a meal app".data, "Added.".data)]
    (List.Forall₂.cons
      ⟨rfl, ⟨by rfl, by rfl, by rfl⟩,
        Or.inr ⟨rfl, rfl⟩⟩
      (List.Forall₂.cons
        ⟨rfl, ⟨by rfl, by rfl, by rfl⟩,
          Or.inl ⟨.obj [("a".data, .num "1".data)], rfl⟩⟩
        List.Forall₂.nil))]
  rfl
